import Mathlib

/-!
Verification of the stage-1 preflight and boot-takeover engine of
balena-io/migrate against its natural-language specification.

Rust strings are embedded as `List Char`; fallible Rust functions return
`Except` (or `Outcome`, which additionally models `panic!`/`unwrap`
aborts); filesystem side effects are embedded as explicit operation
traces.  Each definition is a direct transcription of the corresponding
source item; definitions whose source lives outside the provided files
are modelled from the specification and marked as such in their doc
comments.
-/

namespace Migrate

set_option maxHeartbeats 1000000

set_option maxRecDepth 8192

/-- Character-list embedding of Rust strings. -/
abbrev Str := List Char

/-- Conversion from Lean string literals to the embedding. -/
def str (s : String) : Str := s.toList

/-- The single-quote character, written via its code point. -/
def squote : Char := Char.ofNat 39

/-- Error kinds of `MigError` (common/mig_error.rs). -/
inductive MigErrorKind where
  | InvState
  | InvParam
  | NotFound
  | ExecProcess
  | Upstream
  | Displayed
  | NotImpl
deriving DecidableEq

/-- An embedded `MigError`: a kind together with the remark string built by
`MigError::from_remark`.  `MigError::from(kind)` is embedded with an empty
remark. -/
abbrev MigErr := MigErrorKind × Str

/-- Result of a Rust function that can return `Ok`, return `Err`, or abort
via `panic!`/`unwrap` on `None`. -/
inductive Outcome (ε α : Type) where
  | ok (a : α)
  | err (e : ε)
  | panic
deriving DecidableEq

/-- Monadic bind on `Outcome`, matching the `?` operator with panics
propagated. -/
def Outcome.bind {ε α β : Type} : Outcome ε α → (α → Outcome ε β) → Outcome ε β
  | .ok a, f => f a
  | .err e, _ => .err e
  | .panic, _ => .panic

instance {ε : Type} : Monad (Outcome ε) where
  pure := .ok
  bind := Outcome.bind

instance {ε α : Type} [DecidableEq ε] [DecidableEq α] : DecidableEq (Except ε α) := fun a b =>
  match a, b with
  | .ok x, .ok y =>
    if h : x = y then isTrue (by rw [h]) else isFalse (fun he => h (Except.ok.inj he))
  | .error x, .error y =>
    if h : x = y then isTrue (by rw [h]) else isFalse (fun he => h (Except.error.inj he))
  | .ok _, .error _ => isFalse (fun he => Except.noConfusion he)
  | .error _, .ok _ => isFalse (fun he => Except.noConfusion he)

/-- The `OSArch` enum of common/mod.rs. -/
inductive OSArch where
  | AMD64
  | ARM64
  | ARMEL
  | ARMHF
  | I386
  | MIPS
  | MIPSEL
  | Powerpc
  | PPC64EL
  | S390EX
deriving DecidableEq

/-- Debug/Display rendering of `OSArch` (its `Display` impl prints the
variant name). -/
def OSArch.display : OSArch → Str
  | .AMD64 => str "AMD64"
  | .ARM64 => str "ARM64"
  | .ARMEL => str "ARMEL"
  | .ARMHF => str "ARMHF"
  | .I386 => str "I386"
  | .MIPS => str "MIPS"
  | .MIPSEL => str "MIPSEL"
  | .Powerpc => str "Powerpc"
  | .PPC64EL => str "PPC64EL"
  | .S390EX => str "S390EX"

/-- ASCII whitespace class of the Rust regex `\s` (space, tab, newline,
carriage return, vertical tab, form feed). -/
def rs_isSpace (c : Char) : Bool :=
  c = ' ' || c = '\t' || c = '\n' || c = '\r' || c = Char.ofNat 11 || c = Char.ofNat 12

/-- Value of a decimal digit string, as `str::parse::<u64>` computes it. -/
def digitsToNat (l : Str) : Nat :=
  l.foldl (fun n c => n * 10 + (c.toNat - 48)) 0

/-- Split a string at every newline; the result always has one more chunk
than there are newlines. -/
def lines : Str → List Str
  | [] => [[]]
  | c :: rest =>
    if c = '\n' then [] :: lines rest
    else
      match lines rest with
      | h :: t => (c :: h) :: t
      | [] => [[c]]

/-- Rust `str::lines()`: like `lines` but a trailing newline does not
produce a final empty chunk (inputs are modelled without `\r`). -/
def rust_lines (s : Str) : List Str :=
  match s with
  | [] => []
  | _ => if s.getLast? = some '\n' then (lines s).dropLast else lines s

namespace LinuxMigrator

/-- The `SUPPORTED_OSSES` constant of linux.rs. -/
def SUPPORTED_OSSES : List Str :=
  [str "Ubuntu 18.04.2 LTS",
   str "Ubuntu 16.04.2 LTS",
   str "Ubuntu 14.04.2 LTS",
   str "Raspbian GNU/Linux 9 (stretch)",
   str "Debian GNU/Linux 9 (stretch)"]

/-- The `MIN_DISK_SIZE` constant of linux.rs (2 GiB). -/
def MIN_DISK_SIZE : Nat := 2 * 1024 * 1024 * 1024

/-- The `MEM_THRESHOLD` constant of linux.rs (128 MiB). -/
def MEM_THRESHOLD : Nat := 128 * 1024 * 1024

/-- Modelled from the spec: `format_size_with_unit` lives in the absent
linux_common module; only its use inside error remarks matters here, so it
is modelled as the decimal rendering of the byte count. -/
def format_size_with_unit (n : Nat) : Str := str (toString n)

/-- A resolved partition as used by linux.rs: the fields of
`path_info::PathInfo` consumed by `get_disk_info` (the remaining fields of
the absent linux_common `PathInfo` are irrelevant to those checks). -/
structure PathInfo where
  path : Str
  drive : Str
deriving DecidableEq

/-- The `DiskInfo` struct of the absent linux_common module, with exactly
the fields `get_disk_info` assigns; `Default` gives size 0 and empty
strings. -/
structure DiskInfo where
  drive_size : Nat
  drive_uuid : Str
  drive_dev : Str
  boot_path : Option PathInfo
  efi_path : Option PathInfo
  work_path : Option PathInfo
  root_path : Option PathInfo
deriving DecidableEq

/-- The default `DiskInfo`. -/
def DiskInfo.default : DiskInfo :=
  { drive_size := 0, drive_uuid := [], drive_dev := [],
    boot_path := none, efi_path := none, work_path := none, root_path := none }

/-- Inputs that `get_disk_info` obtains from its collaborators: the
`PathInfo::new` resolutions of /boot, /boot/efi, the work dir and /, and
the result of `call_cmd(LSBLK_CMD, ["-b", "--output=SIZE,UUID", drive],
true)` as a pair of the success flag and the trimmed stdout. -/
structure DiskInfoIn where
  boot_path : Option PathInfo
  efi_path : Option PathInfo
  work_path : Option PathInfo
  root_path : Option PathInfo
  lsblk_res : Except MigErr (Bool × Str)

/-- Capture groups of `LSBLK_REGEX = ^(\d+)(\s+(.*))?$` against a data
line: group 1 is the maximal leading digit run, group 3 (when the optional
group matched) is the remainder after the whitespace run.  `.` does not
match a newline and `$` anchors at the end of the haystack, so a newline
after the first non-whitespace character of the remainder defeats the
match. -/
def lsblk_regex_captures (line : Str) : Option (Str × Option Str) :=
  let digits := line.takeWhile Char.isDigit
  let rest := line.dropWhile Char.isDigit
  if digits.isEmpty then none
  else
    match rest with
    | [] => some (digits, none)
    | c :: _ =>
      if rs_isSpace c then
        let tail := rest.dropWhile rs_isSpace
        if tail.contains '\n' then none else some (digits, some tail)
      else none

/-- The lsblk data-line step of `get_disk_info` (linux.rs lines 527-533):
on a regex match, `drive_size` is set from group 1 (a `u64` parse that
panics above `2^64 - 1`) and `drive_uuid` from group 3 when present; on no
match the struct is left unchanged and no error is raised. -/
def lsblk_apply (disk : DiskInfo) (line : Str) : Outcome MigErr DiskInfo :=
  match lsblk_regex_captures line with
  | none => .ok disk
  | some (digits, uuid?) =>
    if digitsToNat digits < 2 ^ 64 then
      .ok { disk with
            drive_size := digitsToNat digits,
            drive_uuid := match uuid? with | some u => u | none => disk.drive_uuid }
    else .panic

/-- The remark of the split-drive-layout error of `get_disk_info`. -/
def split_drive_remark : Str :=
  str "migrator::linux::get_disk_info: Your device has a disk layout that is incompatible with balena-migrate. balena migrate requires the /boot /boot/efi and / partitions to be on one drive"

/-- `LinuxMigrator::get_disk_info`: checks /boot, optionally /boot/efi,
the work dir and /, enforces that / shares its parent drive with /boot and
with /boot/efi, then parses size and UUID of the drive from the lsblk
output. -/
def get_disk_info (is_efi_boot : Bool) (inp : DiskInfoIn) : Outcome MigErr DiskInfo :=
  match inp.boot_path with
  | none =>
    .err (.InvState, str "Unable to retrieve attributes for /boot file system, giving up.")
  | some boot_part =>
    let disk : DiskInfo :=
      { DiskInfo.default with
        boot_path := some boot_part,
        efi_path := if is_efi_boot then inp.efi_path else none,
        work_path := inp.work_path }
    match inp.root_path with
    | none =>
      .err (.InvState, str "Unable to retrieve attributes for / file system, giving up.")
    | some root_part =>
      let disk := { disk with root_path := some root_part }
      if root_part.drive ≠ boot_part.drive then
        .err (.InvParam, split_drive_remark)
      else
        match disk.efi_path with
        | some efi_part =>
          if root_part.drive ≠ efi_part.drive then
            .err (.InvParam, split_drive_remark)
          else get_disk_info_lsblk root_part disk inp.lsblk_res
        | none => get_disk_info_lsblk root_part disk inp.lsblk_res
where
  /-- The lsblk tail of `get_disk_info` (linux.rs lines 502-536). -/
  get_disk_info_lsblk (root_part : PathInfo) (disk : DiskInfo)
      (res : Except MigErr (Bool × Str)) : Outcome MigErr DiskInfo :=
    match res with
    | .error e => .err e
    | .ok (success, stdout) =>
      if !success || stdout.isEmpty then
        .err (.ExecProcess,
          str "migrator::linux::new: failed to retrieve device attributes for " ++ root_part.drive)
      else
        let output := rust_lines stdout
        if output.length < 2 then
          .err (.InvParam,
            str "migrator::linux::new: failed to parse block device attributes for " ++ root_part.drive)
        else
          match lsblk_apply disk (output.get! 1) with
          | .ok disk => .ok { disk with drive_dev := root_part.drive }
          | .err e => .err e
          | .panic => .panic

/-- Inputs of `LinuxMigrator::try_init` as obtained from its
collaborators: command availability, privilege, OS name and architecture,
the outcomes of the architecture-specific device initialisers (the raspi,
beaglebone and intel_nuc initialisers live in absent modules and are given
as oracles returning the device slug), the configured force_slug, the EFI
flag, the disk resolutions, and the outcome of the remainder of `try_init`
after the minimum-disk-size check (file and balena-config validation). -/
structure TryInitEnv where
  ensure_cmds_res : Except MigErr Unit
  is_admin : Bool
  os_name : Str
  os_arch : OSArch
  armhf_device : Except MigErr Str
  amd64_device : Except MigErr Str
  force_slug : Option Str
  is_efi_boot : Bool
  disk_in : DiskInfoIn
  rest : Outcome MigErr Unit

/-- The remark of the unsupported-OS error of `try_init`. -/
def unsupported_os_remark (os_name : Str) : Str :=
  str "your OS '" ++ os_name ++ str "' is not in the list of operating systems supported by balena-migrate"

/-- The remark of the disk-too-small error of `try_init`. -/
def disk_too_small_remark (drive_dev : Str) (drive_size : Nat) : Str :=
  str "The size of your harddrive " ++ drive_dev ++ str " = "
    ++ format_size_with_unit drive_size ++ str " is too small to install balenaOS"

/-- `LinuxMigrator::try_init` down to and including the
minimum-disk-size check, in source order: ensure_cmds, the admin check,
the `SUPPORTED_OSSES` membership check, the architecture dispatch
(`init_i386` returns `NotImpl`; unsupported architectures return
`InvParam`), force_slug handling, `get_disk_info`, and the
`MIN_DISK_SIZE` gate; the remaining validation is `env.rest`. -/
def try_init (env : TryInitEnv) : Outcome MigErr Unit :=
  match env.ensure_cmds_res with
  | .error e => .err e
  | .ok _ =>
    if !env.is_admin then
      .err (.InvState, str "migrator::linux::try_init: was run without admin privileges")
    else if env.os_name ∉ SUPPORTED_OSSES then
      .err (.InvState, unsupported_os_remark env.os_name)
    else
      let device_slug : Except MigErr Str :=
        match env.os_arch with
        | .ARMHF => env.armhf_device
        | .AMD64 => env.amd64_device
        | .I386 => .error (.NotImpl, [])
        | a =>
          .error (.InvParam,
            str "migrator::linux::try_init: unexpected OsArch encountered: " ++ a.display)
      match device_slug with
      | .error e => .err e
      | .ok slug =>
        let _slug := match env.force_slug with | some s => s | none => slug
        match get_disk_info env.is_efi_boot env.disk_in with
        | .panic => .panic
        | .err e => .err e
        | .ok disk =>
          if disk.drive_size < MIN_DISK_SIZE then
            .err (.InvState, disk_too_small_remark disk.drive_dev disk.drive_size)
          else env.rest

end LinuxMigrator

namespace IntelNuc

/-- The `SUPPORTED_OSSES` constant local to `IntelNuc::from_config`
(device/intel_nuc.rs). -/
def SUPPORTED_OSSES : List Str :=
  [str "Ubuntu 18.04.2 LTS",
   str "Ubuntu 16.04.2 LTS",
   str "Ubuntu 14.04.2 LTS",
   str "Ubuntu 14.04.5 LTS"]

/-- The remark of the unsupported-OS error of `IntelNuc::from_config`. -/
def nuc_unsupported_os_remark (os_name : Str) : Str :=
  str "The OS '" ++ os_name ++ str "' is not supported for device type IntelNuc"

/-- `IntelNuc::from_config`: rejects an OS name outside the device's own
supported list, then rejects secure boot, then consults the GRUB boot
manager's `can_migrate`; the latter two collaborators live in absent
modules and are given as oracles, as is the Debug rendering of the boot
type used in the final remark. -/
def from_config (os_name : Str) (secure_boot : Except MigErr Bool)
    (can_migrate : Except MigErr Bool) (boot_type_dbg : Str) : Except MigErr Unit :=
  if os_name ∉ SUPPORTED_OSSES then
    .error (.InvParam, nuc_unsupported_os_remark os_name)
  else
    match secure_boot with
    | .error e => .error e
    | .ok sb =>
      if sb then
        .error (.InvParam,
          str "balena-migrate does not currently support systems with secure boot enabled.")
      else
        match can_migrate with
        | .error e => .error e
        | .ok true => .ok ()
        | .ok false =>
          .error (.InvState,
            str "The boot manager '" ++ boot_type_dbg ++ str "' is not able to set up your device")

end IntelNuc

/-- Modelled from the spec: the `FailMode` enum of the absent linux_common
module; its variants are Reboot, Rescue and Halt (§3, §6). -/
inductive FailMode where
  | Reboot
  | Rescue
  | Halt
deriving DecidableEq

/-- Modelled from the spec: the textual rendering of a `FailMode` as it
appears in the stage-2 descriptor (§6). -/
def FailMode.to_string : FailMode → Str
  | .Reboot => str "Reboot"
  | .Rescue => str "Rescue"
  | .Halt => str "Halt"

/-- Modelled from the spec: `FailMode::from_str`, the inverse of
`to_string` on the three variant names. -/
def FailMode.from_str (s : Str) : Option FailMode :=
  if s = str "Reboot" then some .Reboot
  else if s = str "Rescue" then some .Rescue
  else if s = str "Halt" then some .Halt
  else none

/-- Modelled from the spec: `FailMode::get_default`; the concrete default
variant is not visible in the provided sources and no verified statement
depends on its choice. -/
def FailMode.get_default : FailMode := FailMode.Reboot

/-- The `Stage2Config` struct of stage2/stage2_config.rs: the stage-2
handoff descriptor.  Path-typed fields are embedded as strings. -/
structure Stage2Config where
  efi_boot : Bool
  fail_mode : FailMode
  boot_device : Str
  root_device : Str
  device_slug : Str
  balena_config : Str
  balena_image : Str
  work_dir : Str
  bckup_cfg : List (Str × Str)
deriving DecidableEq

/-- Modelled from the spec: `STAGE2_CFG_FILE` of the absent defs module,
the well-known descriptor path `/etc/balena-stage2.yml` (§4.7). -/
def STAGE2_CFG_FILE : Str := str "/etc/balena-stage2.yml"

/-- Rendering of a Rust `bool` by `Display`. -/
def boolStr (b : Bool) : Str := if b then str "true" else str "false"

/-- Join a list of lines, terminating every line with a newline, as the
successive `push_str` calls of `write_stage2_cfg` do. -/
def joinNl (ls : List Str) : Str := (ls.map (· ++ ['\n'])).flatten

namespace Stage2Config

/-- The lines pushed by `Stage2Config::write_stage2_cfg`, in source
order: the header comment, the eight `key: value` scalars, the backup
comment, the `backup_config:` key, and an orig/bckup line pair per backup
entry. -/
def write_stage2_cfg_lines (c : Stage2Config) : List Str :=
  [str "# Balena Migrate Stage2 Config",
   str "efi_boot: " ++ boolStr c.efi_boot,
   str "device_slug: '" ++ c.device_slug ++ [squote],
   str "fail_mode: '" ++ c.fail_mode.to_string ++ [squote],
   str "balena_image: '" ++ c.balena_image ++ [squote],
   str "balena_config: '" ++ c.balena_config ++ [squote],
   str "root_device: '" ++ c.root_device ++ [squote],
   str "boot_device: '" ++ c.boot_device ++ [squote],
   str "work_dir: '" ++ c.work_dir ++ [squote],
   str "# backed up files in boot config",
   str "backup_config:"]
  ++ c.bckup_cfg.flatMap (fun p =>
      [str "  - orig:      '" ++ p.1 ++ [squote],
       str "    bckup:     '" ++ p.2 ++ [squote]])

/-- The full serialized descriptor text built by `write_stage2_cfg`. -/
def write_stage2_cfg_str (c : Stage2Config) : Str :=
  joinNl (write_stage2_cfg_lines c)

/-- A filesystem operation performed by the descriptor writer. -/
inductive FsOp where
  | create (path : Str)
  | write_all (path : Str) (content : Str)
  | fsync (path : Str)
  | rename (src : Str) (tgt : Str)
deriving DecidableEq

/-- Whether an operation is a rename. -/
def FsOp.isRename : FsOp → Bool
  | .rename _ _ => true
  | _ => false

/-- Whether an operation is an fsync. -/
def FsOp.isFsync : FsOp → Bool
  | .fsync _ => true
  | _ => false

/-- The filesystem-operation trace of `Stage2Config::write_stage2_cfg`: a
`File::create` of `STAGE2_CFG_FILE` followed by one `write_all` of the
whole serialized string to that same path (I/O failures of the two calls
propagate as errors but do not change the operation sequence). -/
def write_stage2_cfg (c : Stage2Config) : List FsOp :=
  [FsOp.create STAGE2_CFG_FILE,
   FsOp.write_all STAGE2_CFG_FILE (write_stage2_cfg_str c)]

/-- A scalar value of the YAML subset the descriptor uses. -/
inductive Yval where
  | vbool (b : Bool)
  | vstr (s : Str)
deriving DecidableEq

/-- Split a line at its first colon into key and remainder. -/
def splitColon : Str → Option (Str × Str)
  | [] => none
  | c :: rest =>
    if c = ':' then some ([], rest)
    else
      match splitColon rest with
      | some (k, v) => some (c :: k, v)
      | none => none

/-- Strip one pair of enclosing single quotes, as the YAML reader does for
a single-quoted scalar; anything else is returned verbatim. -/
def unquote : Str → Str
  | [] => []
  | c :: rest =>
    if c = squote ∧ rest.getLast? = some squote then rest.dropLast else c :: rest

/-- Parse a scalar value: the unquoted literals `true`/`false` are
booleans, everything else is a string (single-quoted scalars are
unquoted). -/
def parseScalar (v : Str) : Yval :=
  if v = str "true" then .vbool true
  else if v = str "false" then .vbool false
  else .vstr (unquote v)

/-- Parser state of the modelled YAML-subset loader: the top-level scalar
entries, whether the `backup_config` key was seen, and the sequence items
collected under it (most recent first). -/
structure YState where
  scalars : List (Str × Yval)
  backup_seen : Bool
  itemsRev : List (List (Str × Yval))
deriving DecidableEq

/-- The empty parser state. -/
def YState.init : YState := { scalars := [], backup_seen := false, itemsRev := [] }

/-- Modelled from the spec: one line step of the YAML loading performed by
the external `yaml_rust` crate on the descriptor grammar of §6 — comment
and blank lines are skipped, `  - key: value` starts a new sequence item,
a further-indented `key: value` extends the current item, `backup_config:`
introduces the (possibly empty) backup sequence, and any other
`key: value` line is a top-level scalar; per §6, readers tolerate any line
order and unknown keys. -/
def parseLine (st : YState) : Str → YState
  | [] => st
  | c :: rest =>
    if c = '#' then st
    else if (str "  - ").isPrefixOf (c :: rest) then
      match splitColon ((c :: rest).drop 4) with
      | some (k, v) =>
        { st with itemsRev := [(k, parseScalar (v.dropWhile (· = ' ')))] :: st.itemsRev }
      | none => st
    else if (str "    ").isPrefixOf (c :: rest) then
      match splitColon ((c :: rest).drop 4) with
      | some (k, v) =>
        match st.itemsRev with
        | h :: t =>
          { st with itemsRev := (h ++ [(k, parseScalar (v.dropWhile (· = ' ')))]) :: t }
        | [] => st
      | none => st
    else
      match splitColon (c :: rest) with
      | some (k, v) =>
        let v := v.dropWhile (· = ' ')
        if v.isEmpty then
          if k = str "backup_config" then { st with backup_seen := true } else st
        else { st with scalars := st.scalars ++ [(k, parseScalar v)] }
      | none => st

/-- Modelled from the spec: loading the whole descriptor text with the
external YAML reader, line by line. -/
def yaml_load (content : Str) : YState :=
  (lines content).foldl parseLine YState.init

/-- Look a key up among the top-level scalars. -/
def lookupKey (st : YState) (k : Str) : Option Yval :=
  ((st.scalars.find? (fun p => p.1 == k)).map (fun p => p.2))

/-- Modelled from the spec: `get_yaml_bool` of the absent config_helper
module — `Ok(Some b)` for a boolean value, `Ok(None)` for an absent key,
and an error for a value of the wrong type. -/
def get_yaml_bool (st : YState) (k : Str) : Except MigErr (Option Bool) :=
  match lookupKey st k with
  | none => .ok none
  | some (.vbool b) => .ok (some b)
  | some _ => .error (.InvParam, str "invalid type for key " ++ k)

/-- Modelled from the spec: `get_yaml_str` of the absent config_helper
module — `Ok(Some s)` for a string value, `Ok(None)` for an absent key,
and an error for a value of the wrong type. -/
def get_yaml_str (st : YState) (k : Str) : Except MigErr (Option Str) :=
  match lookupKey st k with
  | none => .ok none
  | some (.vstr s) => .ok (some s)
  | some _ => .error (.InvParam, str "invalid type for key " ++ k)

/-- A `get_yaml_bool(...)?.unwrap()` chain: errors propagate and an
absent key panics. -/
def doc_bool (st : YState) (k : Str) : Outcome MigErr Bool :=
  match get_yaml_bool st k with
  | .error e => .err e
  | .ok none => .panic
  | .ok (some b) => .ok b

/-- A `get_yaml_str(...)?.unwrap()` chain: errors propagate and an absent
key panics. -/
def doc_str (st : YState) (k : Str) : Outcome MigErr Str :=
  match get_yaml_str st k with
  | .error e => .err e
  | .ok none => .panic
  | .ok (some s) => .ok s

/-- Lookup of a key inside one backup sequence item. -/
def item_str (h : List (Str × Yval)) (k : Str) : Outcome MigErr Str :=
  match ((h.find? (fun p => p.1 == k)).map (fun p => p.2) : Option Yval) with
  | some (.vstr s) => .ok s
  | some _ => .err (.InvParam, str "invalid type for key " ++ k)
  | none => .panic

/-- The backup-collection loop of `from_config`: each sequence item is a
hash from which `orig` and `bckup` are read (`?` on the type, `unwrap` on
absence). -/
def extract_backups : List (List (Str × Yval)) → Outcome MigErr (List (Str × Str))
  | [] => .ok []
  | h :: t =>
    match item_str h (str "orig") with
    | .err e => .err e
    | .panic => .panic
    | .ok o =>
      match item_str h (str "bckup") with
      | .err e => .err e
      | .panic => .panic
      | .ok b =>
        match extract_backups t with
        | .err e => .err e
        | .panic => .panic
        | .ok rest => .ok ((o, b) :: rest)

/-- `Stage2Config::init_fail_mode`: reads `fail_mode` and falls back to
the default on an absent key, an unparsable value, or a reader error. -/
def init_fail_mode (st : YState) : FailMode :=
  match get_yaml_str st (str "fail_mode") with
  | .ok (some v) =>
    match FailMode.from_str v with
    | some m => m
    | none => FailMode.get_default
  | .ok none => FailMode.get_default
  | .error _ => FailMode.get_default

/-- `Stage2Config::from_config`: loads the YAML document, collects the
backup list (`get_yaml_val(BACKUP_CONFIG_KEY)?.unwrap()` panics when the
key is absent; a non-array value yields an empty list), then reads every
scalar field with `?.unwrap()` chains; `fail_mode` alone is defaulted
rather than enforced. -/
def from_config (content : Str) : Outcome MigErr Stage2Config :=
  let st := yaml_load content
  if !st.backup_seen then .panic
  else
    match extract_backups st.itemsRev.reverse with
    | .err e => .err e
    | .panic => .panic
    | .ok bck =>
      match doc_bool st (str "efi_boot") with
      | .err e => .err e
      | .panic => .panic
      | .ok efi =>
        let fm := init_fail_mode st
        match doc_str st (str "root_device") with
        | .err e => .err e
        | .panic => .panic
        | .ok root =>
          match doc_str st (str "boot_device") with
          | .err e => .err e
          | .panic => .panic
          | .ok boot =>
            match doc_str st (str "device_slug") with
            | .err e => .err e
            | .panic => .panic
            | .ok slug =>
              match doc_str st (str "balena_image") with
              | .err e => .err e
              | .panic => .panic
              | .ok image =>
                match doc_str st (str "balena_config") with
                | .err e => .err e
                | .panic => .panic
                | .ok cfg =>
                  match doc_str st (str "work_dir") with
                  | .err e => .err e
                  | .panic => .panic
                  | .ok wd =>
                    .ok { efi_boot := efi, fail_mode := fm, boot_device := boot,
                          root_device := root, device_slug := slug, balena_config := cfg,
                          balena_image := image, work_dir := wd, bckup_cfg := bck }

/-- Well-formedness of a descriptor for the round-trip statement: no
string field contains a newline (which would break the line grammar) or a
single quote (which the writer does not escape). -/
def WellFormedStr (s : Str) : Prop := '\n' ∉ s ∧ squote ∉ s

/-- Well-formedness of every string field of a descriptor. -/
def WellFormed (c : Stage2Config) : Prop :=
  WellFormedStr c.boot_device ∧ WellFormedStr c.root_device ∧
  WellFormedStr c.device_slug ∧ WellFormedStr c.balena_config ∧
  WellFormedStr c.balena_image ∧ WellFormedStr c.work_dir ∧
  ∀ p ∈ c.bckup_cfg, WellFormedStr p.1 ∧ WellFormedStr p.2

instance : DecidablePred WellFormedStr := fun _ =>
  inferInstanceAs (Decidable (_ ∧ _))

instance (c : Stage2Config) : Decidable (WellFormed c) :=
  inferInstanceAs (Decidable (_ ∧ _))

end Stage2Config

/-- Modelled from the spec: the `BootType` enum of the absent defs
module, one variant per boot-manager flavour of §4.5. -/
inductive BootType where
  | Raspi
  | Raspi64
  | UBoot
  | Grub
  | Efi
  | MSWBootMgr
deriving DecidableEq

/-- Modelled from the spec: `BALENA_FILE_TAG` of the absent defs module,
the marker line written at the top of a rewritten config.txt (§4.5). -/
def BALENA_FILE_TAG : Str := str "## created by balena-migrate"

/-- Rust `Display` rendering of a `usize`/`u64`, used for timestamps. -/
def natStr (n : Nat) : Str := str (toString n)

/-- The `path_append` helper of common: joining a directory and a
relative name with a slash (the absolute-path special case is not
exercised here). -/
def path_append (a b : Str) : Str := a ++ ['/'] ++ b

/-- Rust `str::trim_end` (trailing-whitespace removal; the inputs
considered are ASCII, where `char::is_whitespace` agrees with `\s`). -/
def trim_end (s : Str) : Str := (s.reverse.dropWhile rs_isSpace).reverse

/-- Leftmost match of the regex `P\S+(\s+|$)` for a literal,
non-whitespace-initial `P` against a haystack, as the regex crate finds
it: the earliest position where `P` is followed by at least one
non-whitespace character; the match greedily extends over the
non-whitespace run and the following whitespace run.  Returns the text
before the match, the match, and the text after it. -/
def find_token_match (pat : Str) : Str → Option (Str × Str × Str)
  | [] => none
  | c :: s =>
    let l := c :: s
    let rest := l.drop pat.length
    if pat.isPrefixOf l && (match rest with | [] => false | ch :: _ => !rs_isSpace ch) then
      let w := rest.takeWhile (fun ch => !rs_isSpace ch)
      let rest2 := rest.drop w.length
      let ws := rest2.takeWhile rs_isSpace
      some ([], pat ++ w ++ ws, rest2.drop ws.length)
    else
      match find_token_match pat s with
      | some (before, m, after) => some (c :: before, m, after)
      | none => none

/-- `Regex::replace`: splice the replacement over the first match (the
replacement text is spliced literally; no replacement used here contains
a `$`). -/
def regex_replace (pat rep : Str) (s : Str) : Str :=
  match find_token_match pat s with
  | some (b, _, a) => b ++ rep ++ a
  | none => s

/-- Fuelled worker for `regex_replace_all`; every match is nonempty, so
`s.length` units of fuel always suffice. -/
def regex_replace_all_fuel (pat rep : Str) : Nat → Str → Str
  | 0, s => s
  | fuel + 1, s =>
    match find_token_match pat s with
    | some (b, _, a) => b ++ rep ++ regex_replace_all_fuel pat rep fuel a
    | none => s

/-- `Regex::replace_all`: splice the replacement over every
non-overlapping match, left to right. -/
def regex_replace_all (pat rep s : Str) : Str :=
  regex_replace_all_fuel pat rep s.length s

/-- Rust `str::contains` with a string pattern: substring search. -/
def str_contains : Str → Str → Bool
  | [], pat => pat.isEmpty
  | c :: s, pat => pat.isPrefixOf (c :: s) || str_contains s pat

/-- Split a string at every whitespace character (empty chunks kept). -/
def splitWs : Str → List Str
  | [] => [[]]
  | c :: s =>
    if rs_isSpace c then [] :: splitWs s
    else
      match splitWs s with
      | h :: t => (c :: h) :: t
      | [] => [[c]]

/-- The whitespace-separated tokens of a string. -/
def words (s : Str) : List Str := (splitWs s).filter (fun w => !w.isEmpty)

/-- How many tokens of `s` start with `pat`. -/
def count_tokens (pat : Str) (s : Str) : Nat :=
  (words s).countP (fun w => pat.isPrefixOf w)

/-- A string ends with exactly one trailing newline. -/
def ends_with_single_nl (s : Str) : Prop :=
  s.getLast? = some '\n' ∧ s.dropLast.getLast? ≠ some '\n'

instance (s : Str) : Decidable (ends_with_single_nl s) :=
  inferInstanceAs (Decidable (_ ∧ _))

namespace RaspiBootManager

/-- Constants of linux/boot_manager_impl/raspi_boot_manager.rs. -/
def RPI_MIG_KERNEL_PATH : Str := str "/boot/balena.zImage"

/-- The fixed name of the installed migration kernel. -/
def RPI_MIG_KERNEL_NAME : Str := str "balena.zImage"

/-- The fixed path of the installed migration initramfs. -/
def RPI_MIG_INITRD_PATH : Str := str "/boot/balena.initramfs.cpio.gz"

/-- The fixed name of the installed migration initramfs. -/
def RPI_MIG_INITRD_NAME : Str := str "balena.initramfs.cpio.gz"

/-- The name of the Pi boot configuration file. -/
def RPI_CONFIG_TXT : Str := str "config.txt"

/-- The name of the Pi kernel command-line file. -/
def RPI_CMDLINE_TXT : Str := str "cmdline.txt"

/-- The Pi boot directory. -/
def RPI_BOOT_PATH : Str := str "/boot"

/-- The DTB set required for the Pi 3 variant. -/
def RPI3_DTB_FILES : List Str :=
  [str "bcm2710-rpi-3-b.dtb", str "bcm2710-rpi-3-b-plus.dtb"]

/-- The DTB set required for the 64-bit Pi 4 variant. -/
def RPI4_64_DTB_FILES : List Str := [str "bcm2711-rpi-4-b.dtb"]

/-- `RaspiBootManager::new`: accepts only the two Raspi boot types and
fixes the corresponding DTB list; every other boot type is rejected with
a displayed error. -/
def new (boot_type : BootType) : Except MigErr (List Str) :=
  match boot_type with
  | .Raspi => .ok RPI3_DTB_FILES
  | .Raspi64 => .ok RPI4_64_DTB_FILES
  | _ => .error (.Displayed, [])

/-- A regex test `^\s*P` for a literal `P` starting with a
non-whitespace character: such a match exists exactly when `P` is a
prefix of the line with its leading whitespace removed. -/
def re_leading (pat : Str) (line : Str) : Bool :=
  pat.isPrefixOf (line.dropWhile rs_isSpace)

/-- The `initrd_re` test `^\s*initramfs`. -/
def initrd_re (l : Str) : Bool := re_leading (str "initramfs") l

/-- The `kernel_re` test `^\s*kernel`. -/
def kernel_re (l : Str) : Bool := re_leading (str "kernel") l

/-- The `uart_re` test `^\s*enable_uart`. -/
def uart_re (l : Str) : Bool := re_leading (str "enable_uart") l

/-- The `sixty4_bits_re` test `^\s*arm_64bit`. -/
def sixty4_bits_re (l : Str) : Bool := re_leading (str "arm_64bit") l

/-- One line of the config.txt rewrite loop of `setup`: initramfs, kernel
and enable_uart lines are commented out with a `# ` prefix, as are
arm_64bit lines for the Raspi64 boot type; everything else is kept. -/
def config_txt_line (boot_type : BootType) (line : Str) : Str :=
  if initrd_re line || kernel_re line || uart_re line then str "# " ++ line
  else if boot_type = .Raspi64 then
    if sixty4_bits_re line then str "# " ++ line else line
  else line

/-- The whole config.txt rewrite of `setup`, line-level: the balena tag
is prepended when the file was not already balena-created, every input
line passes through `config_txt_line`, and the new `arm_64bit=1`
(Raspi64 only), `enable_uart=1`, initramfs and kernel lines are
appended. -/
def config_txt_transform (boot_type : BootType) (balena_config : Bool)
    (ls : List Str) : List Str :=
  (if balena_config then [] else [BALENA_FILE_TAG])
  ++ ls.map (config_txt_line boot_type)
  ++ (if boot_type = .Raspi64 then [str "arm_64bit=1"] else [])
  ++ [str "enable_uart=1",
      str "initramfs " ++ RPI_MIG_INITRD_NAME ++ str " followkernel",
      str "kernel " ++ RPI_MIG_KERNEL_NAME]

/-- The cmdline.txt rewrite of `setup` (lines 395-449): trim trailing
whitespace, replace the first `root=\S+(\s+|$)` with the kernel device
(appending the fragment when the result does not contain it), likewise
for `rootfstype=` with the filesystem type, strip every `console=\S+`
token, append the two fixed console tokens, append the caller-provided
kernel options when nonempty, and terminate with a newline. -/
def setup_cmdline (cmdline kernel_cmd fs_type kernel_opts : Str) : Str :=
  let cmdline1 := trim_end cmdline
  let frag1 : Str := str " root=" ++ kernel_cmd ++ [' ']
  let mod1 := regex_replace (str "root=") (frag1.drop 1) cmdline1
  let mod1b := if str_contains mod1 ((frag1.drop 1).dropLast) then mod1
               else mod1 ++ frag1.dropLast
  let frag2 : Str := str " rootfstype=" ++ fs_type ++ [' ']
  let mod2 := regex_replace (str "rootfstype=") (frag2.drop 1) mod1b
  let mod2b := if str_contains mod2 ((frag2.drop 1).dropLast) then mod2
               else mod2 ++ frag2.dropLast
  let mod3 := regex_replace_all (str "console=") (str " ") mod2b
  let mod3b := mod3 ++ str " console=tty1 console=serial0,115200"
  let mod4 := if kernel_opts.isEmpty then mod3b else mod3b ++ [' '] ++ kernel_opts
  mod4 ++ ['\n']

/-- The fields of a `FileInfo` consumed by `setup`; the digest record is
kept opaque as a string. -/
structure FileInfo where
  path : Str
  rel_path : Option Str
  hash_info : Str
deriving DecidableEq

/-- The fields of `migrate_info::MigrateInfo` consumed by `setup`. -/
structure MigrateInfo where
  kernel_file : FileInfo
  initrd_file : FileInfo
  dtb_file : List FileInfo
  work_path : Str
deriving DecidableEq

/-- The fields of the boot path info consumed by `setup`: the mount path
and the device info providing the kernel command-line device name and
the filesystem type. -/
structure PathInfoR where
  path : Str
  kernel_cmd : Str
  fs_type : Str
deriving DecidableEq

/-- One observable action of `setup`. -/
inductive Event where
  | copy (src tgt : Str)
  | chmod_x (tgt : Str)
  | digest_warn (file : Str)
  | set_boot_bckup (bckups : List (Str × Str))
  | write (path : Str) (content : Str)
deriving DecidableEq

/-- Inputs and collaborator outcomes of `RaspiBootManager::setup`: the
migrate info, the boot type with its DTB list, the resolved boot path,
the digest checker, filesystem predicates, the config.txt and
cmdline.txt contents, the timestamp, command/copy outcomes, and the
kernel options. -/
structure SetupEnv where
  mig : MigrateInfo
  boot_type : BootType
  dtb_files : List Str
  bootmgr_path : Option PathInfoR
  check_digest : Str → Str → Except MigErr Bool
  file_exists : Str → Bool
  is_balena_file : Bool
  config_content : Str
  cmdline_content : Option Str
  system_time_secs : Nat
  chmod_res : Except MigErr Unit
  copy_res : Str → Str → Except MigErr Unit
  kernel_opts : Str

/-- The DTB-copy loop of `setup` (lines 232-280): for each required DTB,
back up an existing target (recording the backup), copy the new file in,
and, only when a digest is configured for it, check the digest — a
mismatch or a checker error merely logs a warning and the loop proceeds. -/
def dtb_loop (env : SetupEnv) :
    List Str → List Event → List (Str × Str) →
    Except MigErr (List Event × List (Str × Str))
  | [], evs, bck => .ok (evs, bck)
  | file :: rest, evs, bck =>
    let src_path := path_append env.mig.work_path file
    let tgt_path := path_append RPI_BOOT_PATH file
    let backup_file := file ++ ['-'] ++ natStr env.system_time_secs
    let backup_path := path_append RPI_BOOT_PATH backup_file
    let step1 : Except MigErr (List Event × List (Str × Str)) :=
      if env.file_exists tgt_path then
        match env.copy_res tgt_path backup_path with
        | .error e => .error e
        | .ok _ => .ok (evs ++ [Event.copy tgt_path backup_path], bck ++ [(file, backup_file)])
      else .ok (evs, bck)
    match step1 with
    | .error e => .error e
    | .ok (evs, bck) =>
      match env.copy_res src_path tgt_path with
      | .error e => .error e
      | .ok _ =>
        let evs := evs ++ [Event.copy src_path tgt_path]
        let evs :=
          match env.mig.dtb_file.find? (fun fi =>
              match fi.rel_path with
              | some rp => rp == file
              | none => false) with
          | some fi =>
            match env.check_digest tgt_path fi.hash_info with
            | .ok true => evs
            | .ok false => evs ++ [Event.digest_warn file]
            | .error _ => evs ++ [Event.digest_warn file]
          | none => evs
        dtb_loop env rest evs bck

/-- `RaspiBootManager::setup`, as the sequence of its filesystem actions:
kernel copy and digest check (mismatch is a hard error), chmod, initrd
copy and digest check (mismatch is a hard error), the DTB loop, the
config.txt backup and rewrite, the cmdline.txt backup and rewrite, and
the recording of the backup list.  On success it returns the event
trace. -/
def setup (env : SetupEnv) : Except MigErr (List Event) :=
  match env.copy_res env.mig.kernel_file.path RPI_MIG_KERNEL_PATH with
  | .error e => .error e
  | .ok _ =>
  let evs := [Event.copy env.mig.kernel_file.path RPI_MIG_KERNEL_PATH]
  match env.check_digest RPI_MIG_KERNEL_PATH env.mig.kernel_file.hash_info with
  | .error e => .error e
  | .ok false =>
    .error (.Upstream,
      str "Failed to check digest on copied kernel file '" ++ RPI_MIG_KERNEL_PATH
        ++ str "' to " ++ env.mig.kernel_file.hash_info)
  | .ok true =>
  match env.chmod_res with
  | .error e => .error e
  | .ok _ =>
  let evs := evs ++ [Event.chmod_x RPI_MIG_KERNEL_PATH]
  match env.copy_res env.mig.initrd_file.path RPI_MIG_INITRD_PATH with
  | .error e => .error e
  | .ok _ =>
  let evs := evs ++ [Event.copy env.mig.initrd_file.path RPI_MIG_INITRD_PATH]
  match env.check_digest RPI_MIG_INITRD_PATH env.mig.initrd_file.hash_info with
  | .error e => .error e
  | .ok false =>
    .error (.Upstream,
      str "Failed to check digest on copied initrd file '" ++ RPI_MIG_INITRD_PATH
        ++ str "' to " ++ env.mig.initrd_file.hash_info)
  | .ok true =>
  match env.bootmgr_path with
  | none => .error (.NotFound, str "bootmgr_path is not configured")
  | some boot_path =>
  match dtb_loop env env.dtb_files evs [] with
  | .error e => .error e
  | .ok (evs, bck) =>
  let config_path := path_append boot_path.path RPI_CONFIG_TXT
  if !env.file_exists config_path then
    .error (.NotFound, str "Could not find '" ++ config_path ++ [squote])
  else
  let balena_config := env.is_balena_file
  let backup_cfg : Except MigErr (List Event × List (Str × Str)) :=
    if !balena_config then
      let backup_file := RPI_CONFIG_TXT ++ ['.'] ++ natStr env.system_time_secs
      let backup_path := path_append boot_path.path backup_file
      match env.copy_res config_path backup_path with
      | .error e => .error e
      | .ok _ =>
        .ok (evs ++ [Event.copy config_path backup_path], bck ++ [(RPI_CONFIG_TXT, backup_file)])
    else .ok (evs, bck)
  match backup_cfg with
  | .error e => .error e
  | .ok (evs, bck) =>
  let config_str := joinNl (config_txt_transform env.boot_type balena_config
      (rust_lines env.config_content))
  let cmdline_path := path_append boot_path.path RPI_CMDLINE_TXT
  let backup_cmd : Except MigErr (List Event × List (Str × Str)) :=
    if !balena_config then
      let backup_file := RPI_CMDLINE_TXT ++ ['.'] ++ natStr env.system_time_secs
      let backup_path := path_append boot_path.path backup_file
      match env.copy_res cmdline_path backup_path with
      | .error e => .error e
      | .ok _ =>
        .ok (evs ++ [Event.copy cmdline_path backup_path], bck ++ [(RPI_CMDLINE_TXT, backup_file)])
    else .ok (evs, bck)
  match backup_cmd with
  | .error e => .error e
  | .ok (evs, bck) =>
  match env.cmdline_content with
  | none => .error (.Displayed, [])
  | some cmdline =>
  let cmdline_str := setup_cmdline cmdline boot_path.kernel_cmd boot_path.fs_type env.kernel_opts
  let evs := if !bck.isEmpty then evs ++ [Event.set_boot_bckup bck] else evs
  let evs := evs ++ [Event.write config_path config_str]
  let evs := evs ++ [Event.write cmdline_path cmdline_str]
  .ok evs

/-- `RaspiBootManager::restore`: the body is the literal `false` — no
filesystem operation is performed and `false` is returned regardless of
the descriptor. -/
def restore (_mounts : Unit) (_config : Stage2Config) : List Event × Bool :=
  ([], false)

end RaspiBootManager

/-- A concrete descriptor with a two-entry backup list. -/
def d_multi : Stage2Config :=
  { efi_boot := true, fail_mode := .Rescue, boot_device := str "/dev/sda1",
    root_device := str "/dev/sda2", device_slug := str "intel-nuc",
    balena_config := str "/work/config.json", balena_image := str "/work/balena.img.gz",
    work_dir := str "/work",
    bckup_cfg := [(str "config.txt", str "config.txt.1554324587"),
                  (str "cmdline.txt", str "cmdline.txt.1554324587")] }

/-- A concrete descriptor with an empty backup list. -/
def d_empty : Stage2Config :=
  { efi_boot := false, fail_mode := .Reboot, boot_device := str "/dev/mmcblk0p1",
    root_device := str "/dev/mmcblk0p2", device_slug := str "raspberrypi3",
    balena_config := str "/work/config.json", balena_image := str "/work/balena.img",
    work_dir := str "/work", bckup_cfg := [] }

/-- A concrete disk resolution with /, /boot and the work dir on one
drive and a well-formed lsblk answer. -/
def diskin_one_drive : LinuxMigrator.DiskInfoIn :=
  { boot_path := some { path := str "/boot", drive := str "/dev/sda" },
    efi_path := none,
    work_path := some { path := str "/work", drive := str "/dev/sda" },
    root_path := some { path := str "/", drive := str "/dev/sda" },
    lsblk_res := .ok (true, str "SIZE UUID\n500107862016 a1b2c3d4-e5f6") }

/-- The same resolution with a 1 GiB drive size reported. -/
def diskin_small : LinuxMigrator.DiskInfoIn :=
  { diskin_one_drive with
    lsblk_res := .ok (true, str "SIZE UUID\n1073741824 a1b2c3d4-e5f6") }

/-- A baseline `try_init` environment: commands found, admin, supported
Ubuntu host, AMD64, device resolved to intel-nuc, one-drive layout, and a
succeeding remainder. -/
def env_base : LinuxMigrator.TryInitEnv :=
  { ensure_cmds_res := .ok (), is_admin := true,
    os_name := str "Ubuntu 18.04.2 LTS", os_arch := .AMD64,
    armhf_device := .error (.NotImpl, []), amd64_device := .ok (str "intel-nuc"),
    force_slug := none, is_efi_boot := false,
    disk_in := diskin_one_drive, rest := .ok () }

/-- The baseline environment on an OS outside `SUPPORTED_OSSES` of
linux.rs (but inside the IntelNuc device list). -/
def env_unsupported_os : LinuxMigrator.TryInitEnv :=
  { env_base with os_name := str "Ubuntu 14.04.5 LTS" }

/-- The baseline environment with the 1 GiB drive. -/
def env_small_disk : LinuxMigrator.TryInitEnv :=
  { env_base with disk_in := diskin_small }

/-- A concrete raspi migrate info whose single configured DTB carries a
recorded digest. -/
def mig_rpi : RaspiBootManager.MigrateInfo :=
  { kernel_file := { path := str "/work/balena.zImage", rel_path := none,
                     hash_info := str "kern-digest" },
    initrd_file := { path := str "/work/balena.initramfs.cpio.gz", rel_path := none,
                     hash_info := str "initrd-digest" },
    dtb_file := [{ path := str "/work/bcm2710-rpi-3-b.dtb",
                   rel_path := some (str "bcm2710-rpi-3-b.dtb"),
                   hash_info := str "dtb-digest" }],
    work_path := str "/work" }

/-- A concrete `setup` environment in which every copy succeeds and every
digest check passes except the one for the copied DTB
`/boot/bcm2710-rpi-3-b.dtb`, which reports a mismatch. -/
def env_dtb_mismatch : RaspiBootManager.SetupEnv :=
  { mig := mig_rpi, boot_type := .Raspi,
    dtb_files := RaspiBootManager.RPI3_DTB_FILES,
    bootmgr_path := some { path := str "/boot", kernel_cmd := str "/dev/mmcblk0p2",
                           fs_type := str "ext4" },
    check_digest := fun tgt _ =>
      if tgt = path_append RaspiBootManager.RPI_BOOT_PATH (str "bcm2710-rpi-3-b.dtb")
      then .ok false else .ok true,
    file_exists := fun _ => true,
    is_balena_file := false,
    config_content := str "kernel=kernel7.img\n",
    cmdline_content := some (str "console=serial0,115200 root=PARTUUID=738a4d67-02 rootfstype=ext4 rootwait"),
    system_time_secs := 1554324587,
    chmod_res := .ok (), copy_res := fun _ _ => .ok (), kernel_opts := [] }

/-- The same environment except that the digest check of the copied
migration kernel reports a mismatch. -/
def env_kernel_mismatch : RaspiBootManager.SetupEnv :=
  { env_dtb_mismatch with
    check_digest := fun tgt _ =>
      if tgt = RaspiBootManager.RPI_MIG_KERNEL_PATH then .ok false else .ok true }

/-- Whether `setup` succeeds while logging a digest warning for the given
file. -/
def setup_warns (env : RaspiBootManager.SetupEnv) (file : Str) : Bool :=
  match RaspiBootManager.setup env with
  | .ok evs => evs.contains (.digest_warn file)
  | _ => false

/-! ### Theorems -/

/-- Lists differing at some index differ. -/
theorem ne_of_nth {α : Type} (i : Nat) {l1 l2 : List α} (h : l1[i]? ≠ l2[i]?) :
    l1 ≠ l2 :=
  fun he => h (by rw [he])

/-- The failed-parse remark of the lsblk stage never coincides with the
split-drive remark, whatever drive name is interpolated. -/
theorem parse_remark_ne (d : Str) :
    str "migrator::linux::new: failed to parse block device attributes for " ++ d ≠
      LinuxMigrator.split_drive_remark := by
  apply ne_of_nth 17
  rw [List.getElem?_append_left (by decide)]
  decide

/-- `lsblk_apply` never returns an error. -/
theorem lsblk_apply_no_err (disk : LinuxMigrator.DiskInfo) (line : Str) (e : MigErr) :
    LinuxMigrator.lsblk_apply disk line ≠ .err e := by
  unfold LinuxMigrator.lsblk_apply
  rcases LinuxMigrator.lsblk_regex_captures line with _ | ⟨digits, uuid?⟩ <;> simp
  split <;> simp

/-- The lsblk stage of `get_disk_info` never produces the split-drive
error, provided the command outcome fed to it is not itself that error. -/
theorem lsblk_stage_no_split (root : LinuxMigrator.PathInfo) (disk : LinuxMigrator.DiskInfo)
    (res : Except MigErr (Bool × Str))
    (hres : ∀ e, res = .error e → e ≠ (MigErrorKind.InvParam, LinuxMigrator.split_drive_remark)) :
    LinuxMigrator.get_disk_info.get_disk_info_lsblk root disk res ≠
      .err (MigErrorKind.InvParam, LinuxMigrator.split_drive_remark) := by
  unfold LinuxMigrator.get_disk_info.get_disk_info_lsblk
  rcases res with e | ⟨success, stdout⟩
  · dsimp only
    intro h
    injection h with h1
    exact hres e rfl h1
  · dsimp only
    split
    · simp
    · split
      · intro h
        injection h with h1
        exact parse_remark_ne root.drive (congrArg Prod.snd h1)
      · rcases happ : LinuxMigrator.lsblk_apply disk ((rust_lines stdout).get! 1) with d | e' | _
        · dsimp only
          intro h
          exact Outcome.noConfusion h
        · exact absurd happ (lsblk_apply_no_err _ _ e')
        · dsimp only
          intro h
          exact Outcome.noConfusion h

/-- C6: after resolving the partitions backing /, /boot, and (when
present) /boot/efi, `get_disk_info` fails with the split-drive error
whenever the root partition's parent drive differs from the boot
partition's or from the EFI partition's parent drive (the check is
unconditional — there is no override); when all resolved paths share one
parent drive the split-drive check passes and the function proceeds to
the lsblk stage without ever producing that error. -/
theorem c6_split_drive_gate (is_efi : Bool) (inp : LinuxMigrator.DiskInfoIn)
    (boot root : LinuxMigrator.PathInfo)
    (hb : inp.boot_path = some boot) (hr : inp.root_path = some root)
    (hres : ∀ e, inp.lsblk_res = .error e →
      e ≠ (MigErrorKind.InvParam, LinuxMigrator.split_drive_remark)) :
    ((root.drive ≠ boot.drive ∨
        ∃ efi, (if is_efi then inp.efi_path else none) = some efi ∧ root.drive ≠ efi.drive) →
      LinuxMigrator.get_disk_info is_efi inp =
        .err (MigErrorKind.InvParam, LinuxMigrator.split_drive_remark)) ∧
    ((root.drive = boot.drive ∧
        ∀ efi, (if is_efi then inp.efi_path else none) = some efi → root.drive = efi.drive) →
      LinuxMigrator.get_disk_info is_efi inp ≠
        .err (MigErrorKind.InvParam, LinuxMigrator.split_drive_remark)) := by
  constructor
  · intro hcase
    unfold LinuxMigrator.get_disk_info
    rw [hb, hr]
    dsimp only
    rcases hcase with hne | ⟨efi, hefi, hne⟩
    · rw [if_pos hne]
    · by_cases hrb : root.drive = boot.drive
      · rw [if_neg (not_ne_iff.mpr hrb), hefi]
        dsimp only
        rw [if_pos hne]
      · rw [if_pos hrb]
  · rintro ⟨hrb, hefi⟩
    unfold LinuxMigrator.get_disk_info
    rw [hb, hr]
    dsimp only
    rw [if_neg (not_ne_iff.mpr hrb)]
    rcases hopt : (if is_efi then inp.efi_path else none) with _ | efi
    · exact lsblk_stage_no_split root _ inp.lsblk_res hres
    · dsimp only
      rw [if_neg (not_ne_iff.mpr (hefi efi hopt))]
      exact lsblk_stage_no_split root _ inp.lsblk_res hres

/-- C6 witness: on a layout with /boot on a second drive the split-drive
error is raised, and on the one-drive layout it is not. -/
theorem c6_split_drive_gate_witness :
    LinuxMigrator.get_disk_info false
      { diskin_one_drive with
        boot_path := some { path := str "/boot", drive := str "/dev/sdb" } } =
      .err (MigErrorKind.InvParam, LinuxMigrator.split_drive_remark) ∧
    LinuxMigrator.get_disk_info false diskin_one_drive ≠
      .err (MigErrorKind.InvParam, LinuxMigrator.split_drive_remark) := by
  constructor
  · exact (c6_split_drive_gate false _ _ _ rfl rfl (by intro e he; cases he)).1
      (Or.inl (by decide))
  · exact (c6_split_drive_gate false _ _ _ rfl rfl (by intro e he; cases he)).2
      ⟨by decide, by intro efi hefi; cases hefi⟩

/-- C8 counterexample: pipeline initialization itself rejects
`Ubuntu 14.04.5 LTS` — an OS that the IntelNuc device variant supports —
so the supported-OS membership check is not left to the boot manager. -/
theorem c8_counterexample :
    LinuxMigrator.try_init env_unsupported_os =
      .err (MigErrorKind.InvState,
        LinuxMigrator.unsupported_os_remark (str "Ubuntu 14.04.5 LTS")) ∧
    str "Ubuntu 14.04.5 LTS" ∈ IntelNuc.SUPPORTED_OSSES := by
  exact ⟨by decide, by decide⟩

/-- C8 amended: the supported-OS membership check happens in both places:
`try_init` itself rejects any os_name outside the global
`SUPPORTED_OSSES` list of linux.rs before any device code runs, and
`IntelNuc::from_config` additionally rejects an os_name outside its own
device-specific list. -/
theorem c8_amended_os_checked_twice :
    (∀ env : LinuxMigrator.TryInitEnv, env.ensure_cmds_res = .ok () → env.is_admin = true →
      env.os_name ∉ LinuxMigrator.SUPPORTED_OSSES →
      LinuxMigrator.try_init env =
        .err (MigErrorKind.InvState, LinuxMigrator.unsupported_os_remark env.os_name)) ∧
    (∀ (os : Str) (sb cm : Except MigErr Bool) (dbg : Str), os ∉ IntelNuc.SUPPORTED_OSSES →
      IntelNuc.from_config os sb cm dbg =
        .error (MigErrorKind.InvParam, IntelNuc.nuc_unsupported_os_remark os)) := by
  constructor
  · intro env hc ha hos
    unfold LinuxMigrator.try_init
    rw [hc]
    simp [ha, hos]
  · intro os sb cm dbg hos
    unfold IntelNuc.from_config
    rw [if_pos hos]

/-- C8 amended witness: both rejections at concrete inputs — `try_init`
on `Ubuntu 14.04.5 LTS`, and `IntelNuc::from_config` on
`Raspbian GNU/Linux 9 (stretch)` (which the pipeline list contains but
the device list does not). -/
theorem c8_amended_os_checked_twice_witness :
    LinuxMigrator.try_init env_unsupported_os =
      .err (MigErrorKind.InvState,
        LinuxMigrator.unsupported_os_remark (str "Ubuntu 14.04.5 LTS")) ∧
    IntelNuc.from_config (str "Raspbian GNU/Linux 9 (stretch)") (.ok false) (.ok true)
        (str "GrubInstall") =
      .error (MigErrorKind.InvParam,
        IntelNuc.nuc_unsupported_os_remark (str "Raspbian GNU/Linux 9 (stretch)")) := by
  exact ⟨c8_amended_os_checked_twice.1 env_unsupported_os rfl rfl (by decide),
         c8_amended_os_checked_twice.2 _ _ _ _ (by decide)⟩

/-- C10: `try_init` enforces the 2 GiB minimum installation-drive size:
below `MIN_DISK_SIZE = 2*1024*1024*1024` it fails with the
disk-too-small error (before any of the remaining work), and at or above
the threshold the check passes and `try_init` continues with the rest of
the validation. -/
theorem c10_min_disk_size (env : LinuxMigrator.TryInitEnv)
    (disk : LinuxMigrator.DiskInfo) (slug : Str)
    (hc : env.ensure_cmds_res = .ok ()) (ha : env.is_admin = true)
    (hos : env.os_name ∈ LinuxMigrator.SUPPORTED_OSSES)
    (harch : env.os_arch = OSArch.AMD64) (hdev : env.amd64_device = .ok slug)
    (hdisk : LinuxMigrator.get_disk_info env.is_efi_boot env.disk_in = .ok disk) :
    LinuxMigrator.MIN_DISK_SIZE = 2 * 1024 * 1024 * 1024 ∧
    (disk.drive_size < LinuxMigrator.MIN_DISK_SIZE →
      LinuxMigrator.try_init env =
        .err (MigErrorKind.InvState,
          LinuxMigrator.disk_too_small_remark disk.drive_dev disk.drive_size)) ∧
    (LinuxMigrator.MIN_DISK_SIZE ≤ disk.drive_size →
      LinuxMigrator.try_init env = env.rest) := by
  refine ⟨rfl, ?_, ?_⟩
  · intro h
    unfold LinuxMigrator.try_init
    rw [hc]
    dsimp only
    rw [if_neg (by simp [ha]), if_neg (fun hn => hn hos), harch]
    dsimp only
    rw [hdev]
    dsimp only
    rw [hdisk]
    dsimp only
    rw [if_pos h]
  · intro h
    unfold LinuxMigrator.try_init
    rw [hc]
    dsimp only
    rw [if_neg (by simp [ha]), if_neg (fun hn => hn hos), harch]
    dsimp only
    rw [hdev]
    dsimp only
    rw [hdisk]
    dsimp only
    rw [if_neg (Nat.not_lt.mpr h)]

/-- C10 witness: a 1 GiB drive is rejected with the disk-too-small error
and a 500 GB drive passes the size check. -/
theorem c10_min_disk_size_witness :
    (1073741824 < LinuxMigrator.MIN_DISK_SIZE ∧
      LinuxMigrator.try_init env_small_disk =
        .err (MigErrorKind.InvState,
          LinuxMigrator.disk_too_small_remark (str "/dev/sda") 1073741824)) ∧
    (LinuxMigrator.MIN_DISK_SIZE ≤ 500107862016 ∧
      LinuxMigrator.try_init env_base = env_base.rest) := by
  constructor
  · refine ⟨by decide, ?_⟩
    exact (c10_min_disk_size env_small_disk
      { drive_size := 1073741824, drive_uuid := str "a1b2c3d4-e5f6",
        drive_dev := str "/dev/sda",
        boot_path := some { path := str "/boot", drive := str "/dev/sda" },
        efi_path := none,
        work_path := some { path := str "/work", drive := str "/dev/sda" },
        root_path := some { path := str "/", drive := str "/dev/sda" } }
      (str "intel-nuc") rfl rfl (by decide) rfl rfl (by decide)).2.1 (by decide)
  · refine ⟨by decide, ?_⟩
    exact (c10_min_disk_size env_base
      { drive_size := 500107862016, drive_uuid := str "a1b2c3d4-e5f6",
        drive_dev := str "/dev/sda",
        boot_path := some { path := str "/boot", drive := str "/dev/sda" },
        efi_path := none,
        work_path := some { path := str "/work", drive := str "/dev/sda" },
        root_path := some { path := str "/", drive := str "/dev/sda" } }
      (str "intel-nuc") rfl rfl (by decide) rfl rfl (by decide)).2.2 (by decide)

/-- C5 counterexample: for a concrete descriptor the writer's operation
trace contains no rename and no fsync, and its first operation creates
the final well-known path directly — not a `.tmp` file. -/
theorem c5_counterexample :
    (∀ op ∈ Stage2Config.write_stage2_cfg d_multi, op.isRename = false ∧ op.isFsync = false) ∧
    Stage2Config.write_stage2_cfg d_multi =
      [Stage2Config.FsOp.create STAGE2_CFG_FILE,
       Stage2Config.FsOp.write_all STAGE2_CFG_FILE (Stage2Config.write_stage2_cfg_str d_multi)] := by
  exact ⟨by decide, rfl⟩

/-- C5 amended: `write_stage2_cfg` writes the serialized descriptor
non-atomically — it creates `/etc/balena-stage2.yml` directly and writes
the whole string with a single `write_all`; no temporary file, fsync, or
rename is involved. -/
theorem c5_amended_direct_write (c : Stage2Config) :
    (∀ op ∈ Stage2Config.write_stage2_cfg c, op.isRename = false ∧ op.isFsync = false) ∧
    Stage2Config.write_stage2_cfg c =
      [Stage2Config.FsOp.create STAGE2_CFG_FILE,
       Stage2Config.FsOp.write_all STAGE2_CFG_FILE (Stage2Config.write_stage2_cfg_str c)] ∧
    STAGE2_CFG_FILE = str "/etc/balena-stage2.yml" := by
  refine ⟨?_, rfl, rfl⟩
  intro op hop
  rcases hop with _ | ⟨_, _ | ⟨_, h⟩⟩
  · exact ⟨rfl, rfl⟩
  · exact ⟨rfl, rfl⟩
  · cases h

/-- C5 amended witness: the property evaluated on a concrete
descriptor. -/
theorem c5_amended_direct_write_witness :
    (Stage2Config.FsOp.create STAGE2_CFG_FILE) ∈ Stage2Config.write_stage2_cfg d_empty ∧
    (Stage2Config.FsOp.create STAGE2_CFG_FILE).isRename = false ∧
    (Stage2Config.FsOp.create STAGE2_CFG_FILE).isFsync = false := by
  refine ⟨by decide, ?_⟩
  exact (c5_amended_direct_write d_empty).1 _ (by decide)

/-- C4: the code contradicts the digest discipline for DTB files — in a
run where the digest check of the copied DTB reports a mismatch, `setup`
logs a warning and still succeeds (and the variant's `restore` is a stub
that reverts nothing), whereas a kernel digest mismatch is a hard
error as the claim demands. -/
theorem c4_dtb_digest_mismatch_not_fatal :
    (RaspiBootManager.setup env_dtb_mismatch).isOk = true ∧
    setup_warns env_dtb_mismatch (str "bcm2710-rpi-3-b.dtb") = true ∧
    RaspiBootManager.setup env_kernel_mismatch =
      .error (MigErrorKind.Upstream,
        str "Failed to check digest on copied kernel file '/boot/balena.zImage' to kern-digest") := by
  exact ⟨by decide, by decide, by decide⟩

/-- C9 counterexample: on a descriptor with a two-entry backup list,
`RaspiBootManager::restore` performs no file operation and returns
`false`, although every copy-back (vacuously) succeeded. -/
theorem c9_counterexample :
    RaspiBootManager.restore () d_multi = ([], false) ∧ d_multi.bckup_cfg.length = 2 := by
  exact ⟨rfl, rfl⟩

/-- C9 amended: the raspi `restore` is an unimplemented stub — for every
descriptor it performs no file operation and returns `false`. -/
theorem c9_amended_restore_stub (m : Unit) (c : Stage2Config) :
    RaspiBootManager.restore m c = ([], false) := rfl

/-- A commented-out line never matches `^\s*kernel`. -/
theorem comment_no_kernel (l : Str) : RaspiBootManager.kernel_re (str "# " ++ l) = false := rfl

/-- A commented-out line never matches `^\s*initramfs`. -/
theorem comment_no_initrd (l : Str) : RaspiBootManager.initrd_re (str "# " ++ l) = false := rfl

/-- A commented-out line never matches `^\s*enable_uart`. -/
theorem comment_no_uart (l : Str) : RaspiBootManager.uart_re (str "# " ++ l) = false := rfl

/-- A commented-out line never matches `^\s*arm_64bit`. -/
theorem comment_no_sixty4 (l : Str) : RaspiBootManager.sixty4_bits_re (str "# " ++ l) = false := rfl

/-- No output of the config.txt line rewrite matches `^\s*kernel`. -/
theorem config_line_no_kernel (bt : BootType) (l : Str) :
    RaspiBootManager.kernel_re (RaspiBootManager.config_txt_line bt l) = false := by
  by_cases h1 : (RaspiBootManager.initrd_re l || RaspiBootManager.kernel_re l ||
      RaspiBootManager.uart_re l) = true
  · rw [RaspiBootManager.config_txt_line, if_pos h1]
    exact comment_no_kernel l
  · have hk : RaspiBootManager.kernel_re l = false := by
      cases hek : RaspiBootManager.kernel_re l
      · rfl
      · exact absurd (by simp [hek]) h1
    rw [RaspiBootManager.config_txt_line, if_neg h1]
    by_cases h2 : bt = BootType.Raspi64
    · rw [if_pos h2]
      by_cases h3 : RaspiBootManager.sixty4_bits_re l = true
      · rw [if_pos h3]
        exact comment_no_kernel l
      · rw [if_neg h3]
        exact hk
    · rw [if_neg h2]
      exact hk

/-- No output of the config.txt line rewrite matches `^\s*initramfs`. -/
theorem config_line_no_initrd (bt : BootType) (l : Str) :
    RaspiBootManager.initrd_re (RaspiBootManager.config_txt_line bt l) = false := by
  by_cases h1 : (RaspiBootManager.initrd_re l || RaspiBootManager.kernel_re l ||
      RaspiBootManager.uart_re l) = true
  · rw [RaspiBootManager.config_txt_line, if_pos h1]
    exact comment_no_initrd l
  · have hk : RaspiBootManager.initrd_re l = false := by
      cases hek : RaspiBootManager.initrd_re l
      · rfl
      · exact absurd (by simp [hek]) h1
    rw [RaspiBootManager.config_txt_line, if_neg h1]
    by_cases h2 : bt = BootType.Raspi64
    · rw [if_pos h2]
      by_cases h3 : RaspiBootManager.sixty4_bits_re l = true
      · rw [if_pos h3]
        exact comment_no_initrd l
      · rw [if_neg h3]
        exact hk
    · rw [if_neg h2]
      exact hk

/-- No output of the config.txt line rewrite matches `^\s*enable_uart`. -/
theorem config_line_no_uart (bt : BootType) (l : Str) :
    RaspiBootManager.uart_re (RaspiBootManager.config_txt_line bt l) = false := by
  by_cases h1 : (RaspiBootManager.initrd_re l || RaspiBootManager.kernel_re l ||
      RaspiBootManager.uart_re l) = true
  · rw [RaspiBootManager.config_txt_line, if_pos h1]
    exact comment_no_uart l
  · have hk : RaspiBootManager.uart_re l = false := by
      cases hek : RaspiBootManager.uart_re l
      · rfl
      · exact absurd (by simp [hek]) h1
    rw [RaspiBootManager.config_txt_line, if_neg h1]
    by_cases h2 : bt = BootType.Raspi64
    · rw [if_pos h2]
      by_cases h3 : RaspiBootManager.sixty4_bits_re l = true
      · rw [if_pos h3]
        exact comment_no_uart l
      · rw [if_neg h3]
        exact hk
    · rw [if_neg h2]
      exact hk

/-- In Raspi64 mode, no output of the config.txt line rewrite matches
`^\s*arm_64bit`. -/
theorem config_line_no_sixty4 (l : Str) :
    RaspiBootManager.sixty4_bits_re (RaspiBootManager.config_txt_line BootType.Raspi64 l) = false := by
  by_cases h1 : (RaspiBootManager.initrd_re l || RaspiBootManager.kernel_re l ||
      RaspiBootManager.uart_re l) = true
  · rw [RaspiBootManager.config_txt_line, if_pos h1]
    exact comment_no_sixty4 l
  · rw [RaspiBootManager.config_txt_line, if_neg h1, if_pos rfl]
    by_cases h3 : RaspiBootManager.sixty4_bits_re l = true
    · rw [if_pos h3]
      exact comment_no_sixty4 l
    · rw [if_neg h3]
      exact Bool.eq_false_iff.mpr h3

/-- A matching input line is turned into its `# `-commented form by the
config.txt line rewrite. -/
theorem config_line_comments (bt : BootType) (l : Str)
    (h : (RaspiBootManager.initrd_re l || RaspiBootManager.kernel_re l ||
      RaspiBootManager.uart_re l ||
      (decide (bt = BootType.Raspi64) && RaspiBootManager.sixty4_bits_re l)) = true) :
    RaspiBootManager.config_txt_line bt l = str "# " ++ l := by
  by_cases h1 : (RaspiBootManager.initrd_re l || RaspiBootManager.kernel_re l ||
      RaspiBootManager.uart_re l) = true
  · rw [RaspiBootManager.config_txt_line, if_pos h1]
  · simp only [Bool.or_eq_true, Bool.and_eq_true, decide_eq_true_eq] at h
    rcases h with ((h' | h') | h') | ⟨hbt, h64⟩
    · exact absurd (by simp [h']) h1
    · exact absurd (by simp [h']) h1
    · exact absurd (by simp [h']) h1
    · rw [RaspiBootManager.config_txt_line, if_neg h1, if_pos hbt, if_pos h64]

/-- The mapped body of the config.txt rewrite contributes no line
matching the given test when no rewritten line can match it. -/
theorem countP_map_zero {p : Str → Bool} {f : Str → Str} (ls : List Str)
    (hp : ∀ l, p (f l) = false) : (ls.map f).countP p = 0 := by
  rw [List.countP_eq_zero]
  intro a ha
  rcases List.mem_map.mp ha with ⟨b, _, rfl⟩
  simp [hp b]

/-- C3: for every input config.txt and both Pi boot types, the rewritten
config.txt has exactly one line matching `^\s*kernel`, exactly one
matching `^\s*initramfs`, exactly one matching `^\s*enable_uart`, and —
for the Raspi64 boot type — exactly one matching `^\s*arm_64bit` (namely
the appended `arm_64bit=1`); moreover every input line matching one of
the patterns the rewrite comments out appears in the output with a `# `
prefix. -/
theorem c3_config_txt_invariants (bt : BootType) (balena : Bool) (ls : List Str) :
    (RaspiBootManager.config_txt_transform bt balena ls).countP RaspiBootManager.kernel_re = 1 ∧
    (RaspiBootManager.config_txt_transform bt balena ls).countP RaspiBootManager.initrd_re = 1 ∧
    (RaspiBootManager.config_txt_transform bt balena ls).countP RaspiBootManager.uart_re = 1 ∧
    (bt = BootType.Raspi64 →
      (RaspiBootManager.config_txt_transform bt balena ls).countP
          RaspiBootManager.sixty4_bits_re = 1 ∧
      str "arm_64bit=1" ∈ RaspiBootManager.config_txt_transform bt balena ls) ∧
    (∀ l ∈ ls, (RaspiBootManager.initrd_re l || RaspiBootManager.kernel_re l ||
        RaspiBootManager.uart_re l ||
        (decide (bt = BootType.Raspi64) && RaspiBootManager.sixty4_bits_re l)) = true →
      str "# " ++ l ∈ RaspiBootManager.config_txt_transform bt balena ls) := by
  have htag : ∀ p : Str → Bool, p BALENA_FILE_TAG = false →
      (if balena then ([] : List Str) else [BALENA_FILE_TAG]).countP p = 0 := by
    intro p hp
    cases balena
    · simp [hp]
    · simp
  have harm : ∀ p : Str → Bool, p (str "arm_64bit=1") = false →
      (if bt = BootType.Raspi64 then [str "arm_64bit=1"] else ([] : List Str)).countP p = 0 := by
    intro p hp
    by_cases hbt : bt = BootType.Raspi64
    · rw [if_pos hbt]
      simp [hp]
    · rw [if_neg hbt]
      simp
  refine ⟨?_, ?_, ?_, ?_, ?_⟩
  · unfold RaspiBootManager.config_txt_transform
    simp only [List.countP_append]
    rw [htag _ (by decide), harm _ (by decide),
      countP_map_zero ls (config_line_no_kernel bt)]
    decide
  · unfold RaspiBootManager.config_txt_transform
    simp only [List.countP_append]
    rw [htag _ (by decide), harm _ (by decide),
      countP_map_zero ls (config_line_no_initrd bt)]
    decide
  · unfold RaspiBootManager.config_txt_transform
    simp only [List.countP_append]
    rw [htag _ (by decide), harm _ (by decide),
      countP_map_zero ls (config_line_no_uart bt)]
    decide
  · intro hbt
    subst hbt
    constructor
    · unfold RaspiBootManager.config_txt_transform
      simp only [List.countP_append]
      rw [htag _ (by decide), countP_map_zero ls config_line_no_sixty4]
      decide
    · unfold RaspiBootManager.config_txt_transform
      refine List.mem_append.mpr (Or.inl (List.mem_append.mpr (Or.inr ?_)))
      rw [if_pos rfl]
      exact List.mem_singleton.mpr rfl
  · intro l hl hmatch
    unfold RaspiBootManager.config_txt_transform
    refine List.mem_append.mpr (Or.inl (List.mem_append.mpr (Or.inl
      (List.mem_append.mpr (Or.inr ?_)))))
    rw [← config_line_comments bt l hmatch]
    exact List.mem_map_of_mem _ hl

/-- C3 witness: the two concrete scenarios of the spec — a Pi 3
config.txt with kernel, initramfs and enable_uart lines, and a Pi 4
config.txt with an `arm_64bit=0` line. -/
theorem c3_config_txt_invariants_witness :
    (RaspiBootManager.config_txt_transform BootType.Raspi false
        [str "kernel=kernel7.img", str "initramfs foo followkernel", str "enable_uart=0"]).countP
        RaspiBootManager.kernel_re = 1 ∧
    str "# " ++ str "kernel=kernel7.img" ∈
      RaspiBootManager.config_txt_transform BootType.Raspi false
        [str "kernel=kernel7.img", str "initramfs foo followkernel", str "enable_uart=0"] ∧
    (RaspiBootManager.config_txt_transform BootType.Raspi64 false
        [str "arm_64bit=0"]).countP RaspiBootManager.sixty4_bits_re = 1 := by
  refine ⟨?_, ?_, ?_⟩
  · exact (c3_config_txt_invariants BootType.Raspi false _).1
  · exact (c3_config_txt_invariants BootType.Raspi false _).2.2.2.2
      (str "kernel=kernel7.img") (by decide) (by decide)
  · exact ((c3_config_txt_invariants BootType.Raspi64 false _).2.2.2.1 rfl).1

/-- Whitespace is never a digit. -/
theorem space_not_digit {c : Char} (h : rs_isSpace c = true) : c.isDigit = false := by
  simp only [rs_isSpace, Bool.or_eq_true, decide_eq_true_eq] at h
  rcases h with ((((h | h) | h) | h) | h) | h <;> subst h <;> decide

/-- `contains` is false for a non-member. -/
theorem contains_eq_false {α : Type} [BEq α] [LawfulBEq α] {a : α} {l : List α}
    (h : a ∉ l) : l.contains a = false := by
  simp [List.contains, List.elem_eq_mem, h]

/-- An all-digit nonempty line matches `LSBLK_REGEX` with no UUID
capture. -/
theorem captures_digits_only (data : Str) (h1 : data ≠ [])
    (h2 : ∀ c ∈ data, c.isDigit = true) :
    LinuxMigrator.lsblk_regex_captures data = some (data, none) := by
  have htw : data.takeWhile Char.isDigit = data := by
    have h3 : (data ++ ([] : Str)).takeWhile Char.isDigit
        = data ++ ([] : Str).takeWhile Char.isDigit := List.takeWhile_append_of_pos h2
    simpa using h3
  have hdw : data.dropWhile Char.isDigit = [] := by
    have h3 : (data ++ ([] : Str)).dropWhile Char.isDigit
        = ([] : Str).dropWhile Char.isDigit := List.dropWhile_append_of_pos h2
    simpa using h3
  have hie : data.isEmpty = false := by
    cases data
    · exact absurd rfl h1
    · rfl
  unfold LinuxMigrator.lsblk_regex_captures
  dsimp only
  rw [htw, hdw, if_neg (by simp [hie])]

/-- A digits-whitespace-remainder line matches `LSBLK_REGEX` with the
remainder as the UUID capture. -/
theorem captures_with_uuid (digits ws u : Str) (h1 : digits ≠ [])
    (h2 : ∀ c ∈ digits, c.isDigit = true) (h3 : ws ≠ [])
    (h4 : ∀ c ∈ ws, rs_isSpace c = true)
    (h5 : ∀ c, u.head? = some c → rs_isSpace c = false) (h6 : '\n' ∉ u) :
    LinuxMigrator.lsblk_regex_captures (digits ++ ws ++ u) = some (digits, some u) := by
  rcases ws with _ | ⟨w0, ws'⟩
  · exact absurd rfl h3
  have hw0 : rs_isSpace w0 = true := h4 w0 (List.mem_cons_self w0 ws')
  have hassoc : digits ++ (w0 :: ws') ++ u = digits ++ (w0 :: (ws' ++ u)) := by
    simp
  have htw : (digits ++ (w0 :: (ws' ++ u))).takeWhile Char.isDigit = digits := by
    rw [List.takeWhile_append_of_pos h2,
      List.takeWhile_cons_of_neg (by simp [space_not_digit hw0]), List.append_nil]
  have hdw : (digits ++ (w0 :: (ws' ++ u))).dropWhile Char.isDigit = w0 :: (ws' ++ u) := by
    rw [List.dropWhile_append_of_pos h2, List.dropWhile_cons,
      if_neg (by simp [space_not_digit hw0])]
  have hsp : (w0 :: (ws' ++ u)).dropWhile rs_isSpace = u := by
    rw [List.dropWhile_cons, if_pos hw0,
      List.dropWhile_append_of_pos (fun c hc => h4 c (List.mem_cons_of_mem w0 hc))]
    rcases u with _ | ⟨c, u'⟩
    · rfl
    · rw [List.dropWhile_cons, if_neg (by simp [h5 c rfl])]
  have hie : digits.isEmpty = false := by
    cases digits
    · exact absurd rfl h1
    · rfl
  rw [hassoc]
  unfold LinuxMigrator.lsblk_regex_captures
  dsimp only
  rw [htw, hdw, if_neg (by simp [hie])]
  dsimp only
  rw [if_pos hw0, hsp, contains_eq_false h6]
  rfl

/-- C7: the lsblk output parser of `get_disk_info` matches the data line
against `^(\d+)(\s+(.*))?$` and tolerates an empty UUID column — for a
data line that is only a size number, `get_disk_info` succeeds with that
size and an empty UUID string, and when a UUID column is present its
text is captured as the UUID. -/
theorem c7_lsblk_tolerates_empty_uuid (is_efi : Bool) (inp : LinuxMigrator.DiskInfoIn)
    (boot root : LinuxMigrator.PathInfo) (stdout hdr data : Str)
    (hb : inp.boot_path = some boot) (hr : inp.root_path = some root)
    (hrb : root.drive = boot.drive)
    (hefi : ∀ efi, (if is_efi then inp.efi_path else none) = some efi → root.drive = efi.drive)
    (hres : inp.lsblk_res = .ok (true, stdout))
    (hne : stdout ≠ []) (hlines : rust_lines stdout = [hdr, data]) :
    ((data ≠ [] ∧ (∀ c ∈ data, c.isDigit = true) ∧ digitsToNat data < 2 ^ 64) →
      ∃ disk, LinuxMigrator.get_disk_info is_efi inp = .ok disk ∧
        disk.drive_size = digitsToNat data ∧ disk.drive_uuid = [] ∧
        disk.drive_dev = root.drive) ∧
    (∀ digits ws u, data = digits ++ ws ++ u → digits ≠ [] →
      (∀ c ∈ digits, c.isDigit = true) → digitsToNat digits < 2 ^ 64 → ws ≠ [] →
      (∀ c ∈ ws, rs_isSpace c = true) →
      (∀ c, u.head? = some c → rs_isSpace c = false) → '\n' ∉ u →
      ∃ disk, LinuxMigrator.get_disk_info is_efi inp = .ok disk ∧
        disk.drive_size = digitsToNat digits ∧ disk.drive_uuid = u ∧
        disk.drive_dev = root.drive) := by
  have hie : stdout.isEmpty = false := by
    cases stdout
    · exact absurd rfl hne
    · rfl
  have hred : ∀ disk : LinuxMigrator.DiskInfo,
      LinuxMigrator.get_disk_info.get_disk_info_lsblk root disk inp.lsblk_res =
        match LinuxMigrator.lsblk_apply disk data with
        | .ok disk => .ok { disk with drive_dev := root.drive }
        | .err e => .err e
        | .panic => .panic := by
    intro disk
    unfold LinuxMigrator.get_disk_info.get_disk_info_lsblk
    rw [hres]
    dsimp only
    rw [if_neg (by simp [hie]), hlines]
    rw [if_neg (by simp)]
    rfl
  have hmain : ∀ caps, LinuxMigrator.lsblk_regex_captures data = caps →
      ∀ digits uuid, caps = some (digits, uuid) → digitsToNat digits < 2 ^ 64 →
      ∃ disk, LinuxMigrator.get_disk_info is_efi inp = .ok disk ∧
        disk.drive_size = digitsToNat digits ∧
        disk.drive_uuid = (match uuid with | some u => u | none => ([] : Str)) ∧
        disk.drive_dev = root.drive := by
    intro caps hcaps digits uuid hceq hlt
    subst hceq
    unfold LinuxMigrator.get_disk_info
    rw [hb, hr]
    dsimp only
    rw [if_neg (not_ne_iff.mpr hrb)]
    rcases hopt : (if is_efi then inp.efi_path else none) with _ | efi
    · rw [hred]
      unfold LinuxMigrator.lsblk_apply
      rw [hcaps]
      dsimp only
      rw [if_pos hlt]
      refine ⟨_, rfl, rfl, ?_, rfl⟩
      cases uuid <;> rfl
    · dsimp only
      rw [if_neg (not_ne_iff.mpr (hefi efi hopt))]
      rw [hred]
      unfold LinuxMigrator.lsblk_apply
      rw [hcaps]
      dsimp only
      rw [if_pos hlt]
      refine ⟨_, rfl, rfl, ?_, rfl⟩
      cases uuid <;> rfl
  constructor
  · rintro ⟨h1, h2, h3⟩
    exact hmain _ (captures_digits_only data h1 h2) data none rfl h3
  · intro digits ws u hdata h1 h2 h3 h4 h5 h6 h7
    subst hdata
    exact hmain _ (captures_with_uuid digits ws u h1 h2 h4 h5 h6 h7) digits (some u) rfl h3

/-- C7 witness: the concrete lsblk stub of spec scenario 5 — with a UUID
column the UUID is captured, and with the column blank the UUID is the
empty string, with no error in either case. -/
theorem c7_lsblk_tolerates_empty_uuid_witness :
    (∃ disk, LinuxMigrator.get_disk_info false diskin_one_drive = .ok disk ∧
      disk.drive_size = 500107862016 ∧ disk.drive_uuid = str "a1b2c3d4-e5f6" ∧
      disk.drive_dev = str "/dev/sda") ∧
    (∃ disk, LinuxMigrator.get_disk_info false
        { diskin_one_drive with lsblk_res := .ok (true, str "SIZE UUID\n500107862016") } =
          .ok disk ∧
      disk.drive_size = 500107862016 ∧ disk.drive_uuid = [] ∧
      disk.drive_dev = str "/dev/sda") := by
  constructor
  · have h := (c7_lsblk_tolerates_empty_uuid false diskin_one_drive
      { path := str "/boot", drive := str "/dev/sda" }
      { path := str "/", drive := str "/dev/sda" }
      (str "SIZE UUID\n500107862016 a1b2c3d4-e5f6") (str "SIZE UUID")
      (str "500107862016 a1b2c3d4-e5f6") rfl rfl rfl
      (by intro efi hefi; cases hefi) rfl (by decide) (by decide)).2
      (str "500107862016") (str " ") (str "a1b2c3d4-e5f6") (by decide) (by decide)
      (by decide) (by decide) (by decide) (by decide)
      (by intro c hc; injection hc with hc; subst hc; decide) (by decide)
    simpa using h
  · have h := (c7_lsblk_tolerates_empty_uuid false
      { diskin_one_drive with lsblk_res := .ok (true, str "SIZE UUID\n500107862016") }
      { path := str "/boot", drive := str "/dev/sda" }
      { path := str "/", drive := str "/dev/sda" }
      (str "SIZE UUID\n500107862016") (str "SIZE UUID") (str "500107862016")
      rfl rfl rfl (by intro efi hefi; cases hefi) rfl (by decide) (by decide)).1
      ⟨by decide, by decide, by decide⟩
    simpa using h

/-- Splitting after a newline-free first line. -/
theorem lines_append (l rest : Str) (h : '\n' ∉ l) :
    lines (l ++ '\n' :: rest) = l :: lines rest := by
  induction l with
  | nil => rfl
  | cons c t ih =>
    have hc : c ≠ '\n' := fun he => h (he ▸ List.mem_cons_self c t)
    have ht : '\n' ∉ t := fun he => h (List.mem_cons_of_mem c he)
    rw [List.cons_append, lines, if_neg hc, ih ht]

/-- `lines` of a newline-terminated line list recovers the lines, plus
one empty trailing chunk. -/
theorem lines_joinNl (ls : List Str) (h : ∀ l ∈ ls, '\n' ∉ l) :
    lines (joinNl ls) = ls ++ [[]] := by
  induction ls with
  | nil => rfl
  | cons l t ih =>
    have hl : joinNl (l :: t) = l ++ '\n' :: joinNl t := by
      simp [joinNl]
    rw [hl, lines_append l _ (h l (List.mem_cons_self l t)),
      ih (fun x hx => h x (List.mem_cons_of_mem l hx))]
    rfl

/-- `splitColon` on a colon-free key followed by a colon. -/
theorem splitColon_concrete (k v : Str) (hk : ':' ∉ k) :
    Stage2Config.splitColon (k ++ ':' :: v) = some (k, v) := by
  induction k with
  | nil => rfl
  | cons c t ih =>
    have hc : c ≠ ':' := fun he => hk (he ▸ List.mem_cons_self c t)
    have ht : ':' ∉ t := fun he => hk (List.mem_cons_of_mem c he)
    rw [List.cons_append, Stage2Config.splitColon, if_neg hc, ih ht]

/-- A list is a `isPrefixOf`-prefix of itself followed by anything. -/
theorem pre_self_append (p x : List Char) : p.isPrefixOf (p ++ x) = true := by
  induction p with
  | nil => cases x <;> rfl
  | cons c t ih => simp [List.isPrefixOf, ih]

/-- Unquoting a single-quoted scalar with quote-free body. -/
theorem unquote_quoted (s : Str) (h : squote ∉ s) :
    Stage2Config.unquote (squote :: (s ++ [squote])) = s := by
  unfold Stage2Config.unquote
  dsimp only
  rw [if_pos ⟨rfl, List.getLast?_concat s⟩]
  exact List.dropLast_concat

/-- Parsing a single-quoted scalar with quote-free body. -/
theorem parseScalar_quoted (s : Str) (h : squote ∉ s) :
    Stage2Config.parseScalar (squote :: (s ++ [squote])) = .vstr s := by
  unfold Stage2Config.parseScalar
  rw [if_neg (by intro he; injection he with h1 _; exact absurd h1 (by decide)),
    if_neg (by intro he; injection he with h1 _; exact absurd h1 (by decide)),
    unquote_quoted s h]

/-- `parseLine` on a top-level `key: value` line with a colon-free,
non-comment key and a nonblank value. -/
theorem parseLine_scalar (st : Stage2Config.YState) (k v : Str) (hne : k ≠ [])
    (hh : k.head? ≠ some '#')
    (hp1 : (str "  - ").isPrefixOf (k ++ ':' :: v) = false)
    (hp2 : (str "    ").isPrefixOf (k ++ ':' :: v) = false)
    (hk : ':' ∉ k)
    (hv : (v.dropWhile (· = ' ')).isEmpty = false) :
    Stage2Config.parseLine st (k ++ ':' :: v) =
      { st with scalars := st.scalars ++
          [(k, Stage2Config.parseScalar (v.dropWhile (· = ' ')))] } := by
  rcases k with _ | ⟨c0, k'⟩
  · exact absurd rfl hne
  have hc0 : c0 ≠ '#' := fun he => hh (by rw [he]; rfl)
  simp only [List.cons_append] at hp1 hp2 ⊢
  unfold Stage2Config.parseLine
  dsimp only
  rw [if_neg hc0, if_neg (by simp [hp1]), if_neg (by simp [hp2]),
    ← List.cons_append, splitColon_concrete _ _ hk]
  dsimp only
  rw [if_neg (by simp [hv])]

/-- `parseLine` skips the header comment line. -/
theorem parseLine_comment1 (st : Stage2Config.YState) :
    Stage2Config.parseLine st (str "# Balena Migrate Stage2 Config") = st := rfl

/-- `parseLine` skips the backup comment line. -/
theorem parseLine_comment2 (st : Stage2Config.YState) :
    Stage2Config.parseLine st (str "# backed up files in boot config") = st := rfl

/-- `parseLine` skips a blank line. -/
theorem parseLine_blank (st : Stage2Config.YState) :
    Stage2Config.parseLine st [] = st := rfl

/-- `parseLine` records the `backup_config:` key. -/
theorem parseLine_backup_key (st : Stage2Config.YState) :
    Stage2Config.parseLine st (str "backup_config:") = { st with backup_seen := true } := rfl

/-- `parseLine` on the `efi_boot` line. -/
theorem parseLine_efi (st : Stage2Config.YState) (b : Bool) :
    Stage2Config.parseLine st (str "efi_boot: " ++ boolStr b) =
      { st with scalars := st.scalars ++ [(str "efi_boot", Stage2Config.Yval.vbool b)] } := by
  cases b <;> rfl

/-- `parseLine` on the `fail_mode` line. -/
theorem parseLine_fail (st : Stage2Config.YState) (fm : FailMode) :
    Stage2Config.parseLine st (str "fail_mode: '" ++ fm.to_string ++ [squote]) =
      { st with scalars := st.scalars ++
          [(str "fail_mode", Stage2Config.Yval.vstr fm.to_string)] } := by
  cases fm <;> rfl

/-- `parseLine` on a single-quoted string scalar line whose key and
quoting frame are those of the descriptor writer. -/
theorem parseLine_strval (st : Stage2Config.YState) (k s : Str) (hq : squote ∉ s)
    (hne : k ≠ []) (hh : k.head? ≠ some '#')
    (hp1 : (str "  - ").isPrefixOf (k ++ ':' :: (' ' :: (squote :: (s ++ [squote])))) = false)
    (hp2 : (str "    ").isPrefixOf (k ++ ':' :: (' ' :: (squote :: (s ++ [squote])))) = false)
    (hk : ':' ∉ k) :
    Stage2Config.parseLine st (k ++ ':' :: (' ' :: (squote :: (s ++ [squote])))) =
      { st with scalars := st.scalars ++ [(k, Stage2Config.Yval.vstr s)] } := by
  rw [parseLine_scalar st k _ hne hh hp1 hp2 hk (by rfl)]
  rw [show (((' ' :: (squote :: (s ++ [squote]))).dropWhile (· = ' ')))
      = squote :: (s ++ [squote]) from rfl]
  rw [parseScalar_quoted s hq]

/-- `parseLine` on the `device_slug` line. -/
theorem parseLine_slug (st : Stage2Config.YState) (s : Str) (hq : squote ∉ s) :
    Stage2Config.parseLine st (str "device_slug: '" ++ s ++ [squote]) =
      { st with scalars := st.scalars ++ [(str "device_slug", Stage2Config.Yval.vstr s)] } := by
  show Stage2Config.parseLine st
    (str "device_slug" ++ ':' :: (' ' :: (squote :: (s ++ [squote])))) = _
  exact parseLine_strval st (str "device_slug") s hq (by decide) (by decide) rfl rfl (by decide)

/-- `parseLine` on the `balena_image` line. -/
theorem parseLine_image (st : Stage2Config.YState) (s : Str) (hq : squote ∉ s) :
    Stage2Config.parseLine st (str "balena_image: '" ++ s ++ [squote]) =
      { st with scalars := st.scalars ++ [(str "balena_image", Stage2Config.Yval.vstr s)] } := by
  show Stage2Config.parseLine st
    (str "balena_image" ++ ':' :: (' ' :: (squote :: (s ++ [squote])))) = _
  exact parseLine_strval st (str "balena_image") s hq (by decide) (by decide) rfl rfl (by decide)

/-- `parseLine` on the `balena_config` line. -/
theorem parseLine_bconfig (st : Stage2Config.YState) (s : Str) (hq : squote ∉ s) :
    Stage2Config.parseLine st (str "balena_config: '" ++ s ++ [squote]) =
      { st with scalars := st.scalars ++ [(str "balena_config", Stage2Config.Yval.vstr s)] } := by
  show Stage2Config.parseLine st
    (str "balena_config" ++ ':' :: (' ' :: (squote :: (s ++ [squote])))) = _
  exact parseLine_strval st (str "balena_config") s hq (by decide) (by decide) rfl rfl (by decide)

/-- `parseLine` on the `root_device` line. -/
theorem parseLine_root (st : Stage2Config.YState) (s : Str) (hq : squote ∉ s) :
    Stage2Config.parseLine st (str "root_device: '" ++ s ++ [squote]) =
      { st with scalars := st.scalars ++ [(str "root_device", Stage2Config.Yval.vstr s)] } := by
  show Stage2Config.parseLine st
    (str "root_device" ++ ':' :: (' ' :: (squote :: (s ++ [squote])))) = _
  exact parseLine_strval st (str "root_device") s hq (by decide) (by decide) rfl rfl (by decide)

/-- `parseLine` on the `boot_device` line. -/
theorem parseLine_boot (st : Stage2Config.YState) (s : Str) (hq : squote ∉ s) :
    Stage2Config.parseLine st (str "boot_device: '" ++ s ++ [squote]) =
      { st with scalars := st.scalars ++ [(str "boot_device", Stage2Config.Yval.vstr s)] } := by
  show Stage2Config.parseLine st
    (str "boot_device" ++ ':' :: (' ' :: (squote :: (s ++ [squote])))) = _
  exact parseLine_strval st (str "boot_device") s hq (by decide) (by decide) rfl rfl (by decide)

/-- `parseLine` on the `work_dir` line. -/
theorem parseLine_work (st : Stage2Config.YState) (s : Str) (hq : squote ∉ s) :
    Stage2Config.parseLine st (str "work_dir: '" ++ s ++ [squote]) =
      { st with scalars := st.scalars ++ [(str "work_dir", Stage2Config.Yval.vstr s)] } := by
  show Stage2Config.parseLine st
    (str "work_dir" ++ ':' :: (' ' :: (squote :: (s ++ [squote])))) = _
  exact parseLine_strval st (str "work_dir") s hq (by decide) (by decide) rfl rfl (by decide)

/-- `parseLine` on a backup sequence item-start line. -/
theorem parseLine_item_orig (st : Stage2Config.YState) (s : Str) (hq : squote ∉ s) :
    Stage2Config.parseLine st (str "  - orig:      '" ++ s ++ [squote]) =
      { st with itemsRev := [(str "orig", Stage2Config.Yval.vstr s)] :: st.itemsRev } := by
  show Stage2Config.parseLine st (' ' :: (' ' :: ('-' :: (' ' :: (str "orig" ++ ':' ::
      (str "      " ++ (squote :: (s ++ [squote])))))))) = _
  unfold Stage2Config.parseLine
  dsimp only
  rw [if_neg (by decide)]
  rw [if_pos (show ((str "  - ").isPrefixOf (' ' :: (' ' :: ('-' :: (' ' :: (str "orig" ++ ':' ::
      (str "      " ++ (squote :: (s ++ [squote]))))))))) = true from
    pre_self_append (str "  - ") _)]
  rw [show (' ' :: (' ' :: ('-' :: (' ' :: (str "orig" ++ ':' ::
      (str "      " ++ (squote :: (s ++ [squote])))))))).drop 4 =
      str "orig" ++ ':' :: (str "      " ++ (squote :: (s ++ [squote]))) from rfl]
  rw [splitColon_concrete _ _ (by decide)]
  dsimp only
  rw [show ((str "      " ++ (squote :: (s ++ [squote]))).dropWhile (· = ' '))
      = squote :: (s ++ [squote]) from rfl]
  rw [parseScalar_quoted s hq]

/-- `parseLine` on a backup sequence item-continuation line. -/
theorem parseLine_item_bckup (st : Stage2Config.YState) (s : Str) (hq : squote ∉ s)
    (h0 : List (Str × Stage2Config.Yval)) (t : List (List (Str × Stage2Config.Yval)))
    (hit : st.itemsRev = h0 :: t) :
    Stage2Config.parseLine st (str "    bckup:     '" ++ s ++ [squote]) =
      { st with itemsRev := (h0 ++ [(str "bckup", Stage2Config.Yval.vstr s)]) :: t } := by
  show Stage2Config.parseLine st (' ' :: (' ' :: (' ' :: (' ' :: (str "bckup" ++ ':' ::
      (str "     " ++ (squote :: (s ++ [squote])))))))) = _
  unfold Stage2Config.parseLine
  dsimp only
  rw [if_neg (by decide)]
  have hfalse : ((str "  - ").isPrefixOf (' ' :: (' ' :: (' ' :: (' ' :: (str "bckup" ++ ':' ::
      (str "     " ++ (squote :: (s ++ [squote]))))))))) = false := rfl
  rw [if_neg (by simp [hfalse])]
  rw [if_pos (show ((str "    ").isPrefixOf (' ' :: (' ' :: (' ' :: (' ' :: (str "bckup" ++ ':' ::
      (str "     " ++ (squote :: (s ++ [squote]))))))))) = true from
    pre_self_append (str "    ") _)]
  rw [show (' ' :: (' ' :: (' ' :: (' ' :: (str "bckup" ++ ':' ::
      (str "     " ++ (squote :: (s ++ [squote])))))))).drop 4 =
      str "bckup" ++ ':' :: (str "     " ++ (squote :: (s ++ [squote]))) from rfl]
  rw [splitColon_concrete _ _ (by decide)]
  dsimp only
  rw [hit]
  dsimp only
  rw [show ((str "     " ++ (squote :: (s ++ [squote]))).dropWhile (· = ' '))
      = squote :: (s ++ [squote]) from rfl]
  rw [parseScalar_quoted s hq]

/-- Folding the parser over the emitted backup line pairs collects the
corresponding sequence items (most recent first). -/
theorem fold_backup_items (bck : List (Str × Str)) (st : Stage2Config.YState)
    (hb : ∀ p ∈ bck, squote ∉ p.1 ∧ squote ∉ p.2) :
    (bck.flatMap (fun p =>
        [str "  - orig:      '" ++ p.1 ++ [squote],
         str "    bckup:     '" ++ p.2 ++ [squote]])).foldl Stage2Config.parseLine st =
      { st with itemsRev :=
          (bck.map (fun p => [(str "orig", Stage2Config.Yval.vstr p.1),
            (str "bckup", Stage2Config.Yval.vstr p.2)])).reverse ++ st.itemsRev } := by
  induction bck generalizing st with
  | nil => rfl
  | cons p rest ih =>
    have hp := hb p (List.mem_cons_self p rest)
    have hrest : ∀ q ∈ rest, squote ∉ q.1 ∧ squote ∉ q.2 :=
      fun q hq => hb q (List.mem_cons_of_mem p hq)
    rw [List.flatMap_cons, List.foldl_append]
    simp only [List.foldl_cons, List.foldl_nil]
    rw [parseLine_item_orig st p.1 hp.1]
    rw [parseLine_item_bckup _ p.2 hp.2 _ _ rfl]
    rw [ih _ hrest]
    simp

/-- Reading the collected sequence items back yields exactly the emitted
backup pairs. -/
theorem extract_backups_map (bck : List (Str × Str)) :
    Stage2Config.extract_backups (bck.map (fun p =>
      [(str "orig", Stage2Config.Yval.vstr p.1),
       (str "bckup", Stage2Config.Yval.vstr p.2)])) = .ok bck := by
  induction bck with
  | nil => rfl
  | cons p rest ih =>
    rw [List.map_cons]
    unfold Stage2Config.extract_backups
    rw [show Stage2Config.item_str [(str "orig", Stage2Config.Yval.vstr p.1),
        (str "bckup", Stage2Config.Yval.vstr p.2)] (str "orig") = .ok p.1 from rfl]
    rw [show Stage2Config.item_str [(str "orig", Stage2Config.Yval.vstr p.1),
        (str "bckup", Stage2Config.Yval.vstr p.2)] (str "bckup") = .ok p.2 from rfl]
    rw [ih]

/-- C1: round-trip of the stage-2 descriptor — for every well-formed
descriptor (no newline or single quote in a string field, backup list of
any length), parsing the text emitted by `write_stage2_cfg` yields the
descriptor back, equal in every field. -/
theorem c1_stage2_roundtrip (c : Stage2Config) (h : Stage2Config.WellFormed c) :
    Stage2Config.from_config (Stage2Config.write_stage2_cfg_str c) = .ok c := by
  obtain ⟨hbd, hrd, hds, hbc, hbi, hwd, hbck⟩ := h
  have base : ∀ (P s : Str), '\n' ∉ P → '\n' ∉ s → '\n' ∉ P ++ s ++ [squote] := by
    intro P s h1 h2 hin
    rcases List.mem_append.mp hin with hin | hin
    · rcases List.mem_append.mp hin with hin | hin
      · exact h1 hin
      · exact h2 hin
    · simp only [List.mem_singleton] at hin
      exact absurd hin (by decide)
  have hnl : ∀ l ∈ Stage2Config.write_stage2_cfg_lines c, '\n' ∉ l := by
    intro l hl
    unfold Stage2Config.write_stage2_cfg_lines at hl
    rcases List.mem_append.mp hl with hl | hl
    · simp only [List.mem_cons, List.not_mem_nil, or_false] at hl
      rcases hl with rfl | rfl | rfl | rfl | rfl | rfl | rfl | rfl | rfl | rfl | rfl
      · decide
      · cases hb : c.efi_boot <;> decide
      · exact base _ _ (by decide) hds.1
      · cases c.fail_mode <;> decide
      · exact base _ _ (by decide) hbi.1
      · exact base _ _ (by decide) hbc.1
      · exact base _ _ (by decide) hrd.1
      · exact base _ _ (by decide) hbd.1
      · exact base _ _ (by decide) hwd.1
      · decide
      · decide
    · rcases List.mem_flatMap.mp hl with ⟨p, hp, hl⟩
      have hw := hbck p hp
      simp only [List.mem_cons, List.not_mem_nil, or_false] at hl
      rcases hl with rfl | rfl
      · exact base _ _ (by decide) hw.1.1
      · exact base _ _ (by decide) hw.2.1
  have hbq : ∀ p ∈ c.bckup_cfg, squote ∉ p.1 ∧ squote ∉ p.2 :=
    fun p hp => ⟨(hbck p hp).1.2, (hbck p hp).2.2⟩
  unfold Stage2Config.from_config Stage2Config.yaml_load Stage2Config.write_stage2_cfg_str
  rw [lines_joinNl _ hnl]
  unfold Stage2Config.write_stage2_cfg_lines
  rw [List.foldl_append, List.foldl_append]
  simp only [List.foldl_cons, List.foldl_nil]
  rw [parseLine_comment1, parseLine_efi, parseLine_slug _ _ hds.2, parseLine_fail,
    parseLine_image _ _ hbi.2, parseLine_bconfig _ _ hbc.2, parseLine_root _ _ hrd.2,
    parseLine_boot _ _ hbd.2, parseLine_work _ _ hwd.2, parseLine_comment2,
    parseLine_backup_key]
  rw [fold_backup_items _ _ hbq, parseLine_blank]
  dsimp only [Stage2Config.YState.init]
  rw [List.append_nil, List.reverse_reverse, extract_backups_map]
  rcases c with ⟨efi, fm, bd, rd, ds, bc, bi, wd, bck⟩
  cases fm <;> rfl

/-- A prefix is in particular a contiguous part. -/
theorem inf_of_pre {α : Type} {l₁ l₂ : List α} (h : l₁ <+: l₂) : l₁ <:+: l₂ := by
  obtain ⟨t, ht⟩ := h
  exact ⟨[], t, by simpa using ht⟩

/-- Any occurrence of `p` inside `a ++ b` lies inside `a`, inside `b`, or
straddles the junction, splitting `p` at some interior index `k`. -/
theorem infix_append_cases {α : Type} {p a b : List α} (h : p <:+: a ++ b) :
    p <:+: a ∨ p <:+: b ∨
      ∃ k, 0 < k ∧ k < p.length ∧ (p.take k) <:+ a ∧ (p.drop k) <+: b := by
  obtain ⟨s, t, hst⟩ := h
  rw [List.append_assoc] at hst
  by_cases h1 : s.length + p.length ≤ a.length
  · have hsl : s.length ≤ a.length := le_trans (Nat.le_add_right _ _) h1
    have h3 : List.take a.length (s ++ (p ++ t)) = a := by
      rw [hst, List.take_left]
    rw [List.take_append_eq_append_take, List.take_of_length_le hsl,
      List.take_append_eq_append_take, List.take_of_length_le (by omega)] at h3
    exact Or.inl ⟨s, _, by rw [List.append_assoc]; exact h3⟩
  · by_cases h2 : a.length ≤ s.length
    · have h3 : List.drop a.length (s ++ (p ++ t)) = b := by
        rw [hst, List.drop_left]
      rw [List.drop_append_eq_append_drop, Nat.sub_eq_zero_of_le h2, List.drop_zero] at h3
      exact Or.inr (Or.inl ⟨s.drop a.length, t, by rw [List.append_assoc]; exact h3⟩)
    · have hks : s.length < a.length := Nat.lt_of_not_le h2
      have hkp : a.length - s.length < p.length := by omega
      have hk0 : 0 < a.length - s.length := by omega
      have h3 : List.take a.length (s ++ (p ++ t)) = a := by
        rw [hst, List.take_left]
      rw [List.take_append_eq_append_take, List.take_of_length_le (le_of_lt hks),
        List.take_append_eq_append_take, Nat.sub_eq_zero_of_le (le_of_lt hkp),
        List.take_zero, List.append_nil] at h3
      have h4 : List.drop a.length (s ++ (p ++ t)) = b := by
        rw [hst, List.drop_left]
      rw [List.drop_append_eq_append_drop, List.drop_eq_nil_of_le (le_of_lt hks),
        List.nil_append, List.drop_append_eq_append_drop,
        Nat.sub_eq_zero_of_le (le_of_lt hkp), List.drop_zero] at h4
      exact Or.inr (Or.inr ⟨a.length - s.length, hk0, hkp, ⟨s, h3⟩, ⟨t, h4⟩⟩)

/-- No occurrence of `p` in `a ++ b` when `p` occurs in neither part and
no nonempty initial segment of `p` ends `a`. -/
theorem not_infix_append_concrete {p a b : List Char} (ha : ¬ p <:+: a) (hb : ¬ p <:+: b)
    (hj : ∀ k, k < p.length → 0 < k → ¬ (p.take k) <:+ a) : ¬ p <:+: (a ++ b) := by
  intro h
  rcases infix_append_cases h with h | h | ⟨k, hk0, hkl, hsa, _⟩
  exacts [ha h, hb h, hj k hkl hk0 hsa]

/-- No occurrence of `p` in `a ++ b` when `p` occurs in neither part and
`b` starts with a character that `p` does not contain. -/
theorem not_infix_append_head {p a b : List Char} {c : Char} (ha : ¬ p <:+: a)
    (hb : ¬ p <:+: b) (hhead : b.head? = some c) (hc : c ∉ p) : ¬ p <:+: (a ++ b) := by
  intro h
  rcases infix_append_cases h with h | h | ⟨k, hk0, hkl, _, hpre⟩
  · exact ha h
  · exact hb h
  · rcases hd : p.drop k with _ | ⟨d, rest⟩
    · have := congrArg List.length hd
      simp only [List.length_drop, List.length_nil] at this
      omega
    · have hdp : d ∈ p := List.drop_subset k p (hd ▸ List.mem_cons_self d rest)
      obtain ⟨t2, ht⟩ := hpre
      rw [hd] at ht
      have hb2 : b.head? = some d := by rw [← ht]; rfl
      rw [hhead] at hb2
      injection hb2 with hdc
      exact hc (by rw [hdc]; exact hdp)

/-- A pattern with no occurrence in the haystack is never found by the
token-match scanner. -/
theorem find_none {pat : Str} : ∀ {s : Str}, ¬ pat <:+: s →
    find_token_match pat s = none := by
  intro s
  induction s with
  | nil => intro _; rfl
  | cons c t ih =>
    intro h
    have hp : pat.isPrefixOf (c :: t) = false := by
      cases hpre : pat.isPrefixOf (c :: t)
      · rfl
      · exfalso
        exact h (inf_of_pre (by simpa using hpre))
    unfold find_token_match
    dsimp only
    rw [hp, Bool.false_and, if_neg (by simp), ih (fun hi => h (List.infix_cons hi))]

/-- `Regex::replace` is the identity when the pattern does not occur. -/
theorem replace_none {pat rep s : Str} (h : ¬ pat <:+: s) :
    regex_replace pat rep s = s := by
  unfold regex_replace
  rw [find_none h]

/-- `Regex::replace_all` is the identity when the pattern does not
occur. -/
theorem replace_all_none {pat rep s : Str} (h : ¬ pat <:+: s) :
    regex_replace_all pat rep s = s := by
  unfold regex_replace_all
  cases s with
  | nil => rfl
  | cons c t =>
    rw [show (c :: t).length = t.length + 1 from rfl]
    unfold regex_replace_all_fuel
    rw [find_none h]

/-- `str::contains` is false when the pattern does not occur. -/
theorem str_contains_false {pat : Str} : ∀ {s : Str}, ¬ pat <:+: s →
    str_contains s pat = false := by
  intro s
  induction s with
  | nil =>
    intro h
    cases pat with
    | nil => exact absurd ⟨[], [], rfl⟩ h
    | cons _ _ => rfl
  | cons c t ih =>
    intro h
    have hp : pat.isPrefixOf (c :: t) = false := by
      cases hpre : pat.isPrefixOf (c :: t)
      · rfl
      · exfalso
        exact h (inf_of_pre (by simpa using hpre))
    unfold str_contains
    rw [hp, Bool.false_or, ih (fun hi => h (List.infix_cons hi))]

/-- The trimmed string is an initial segment of the original. -/
theorem trim_end_pre (s : Str) : trim_end s <+: s := by
  have hsuf : s.reverse.dropWhile rs_isSpace <:+ s.reverse := List.dropWhile_suffix _
  obtain ⟨u, hu⟩ := hsuf
  refine ⟨u.reverse, ?_⟩
  have h2 := congrArg List.reverse hu
  rwa [List.reverse_append, List.reverse_reverse] at h2

/-- A pattern absent from a string is absent from its trimmed form. -/
theorem not_infix_trim {pat s : Str} (h : ¬ pat <:+: s) : ¬ pat <:+: trim_end s :=
  fun hi => h (hi.trans (inf_of_pre (trim_end_pre s)))

/-- Unfolding equation of the splitter on a cons cell. -/
theorem splitWs_cons (c : Char) (s : Str) :
    splitWs (c :: s) =
      if rs_isSpace c = true then [] :: splitWs s
      else
        match splitWs s with
        | h :: t => (c :: h) :: t
        | [] => [[c]] := rfl

/-- The whitespace splitter never returns an empty chunk list. -/
theorem splitWs_ne_nil : ∀ s : Str, splitWs s ≠ [] := by
  intro s
  induction s with
  | nil => simp [splitWs]
  | cons c t ih =>
    rw [splitWs_cons]
    by_cases hc : rs_isSpace c = true
    · rw [if_pos hc]
      simp
    · rw [if_neg hc]
      rcases hs : splitWs t with _ | ⟨h2, t2⟩
      · exact absurd hs ih
      · simp

/-- Splitting distributes over a whitespace junction character. -/
theorem splitWs_append_sep {c : Char} (hc : rs_isSpace c = true) :
    ∀ (a b : Str), splitWs (a ++ c :: b) = splitWs a ++ splitWs b := by
  intro a
  induction a with
  | nil =>
    intro b
    rw [List.nil_append, splitWs_cons, if_pos hc]
    rfl
  | cons d a' ih =>
    intro b
    rw [List.cons_append, splitWs_cons, splitWs_cons]
    by_cases hd : rs_isSpace d = true
    · rw [if_pos hd, if_pos hd, ih b]
      rfl
    · rw [if_neg hd, if_neg hd, ih b]
      rcases hs : splitWs a' with _ | ⟨h2, t2⟩
      · exact absurd hs (splitWs_ne_nil a')
      · rfl

/-- Token extraction distributes over a whitespace junction character. -/
theorem words_append_sep {c : Char} (hc : rs_isSpace c = true) (a b : Str) :
    words (a ++ c :: b) = words a ++ words b := by
  unfold words
  rw [splitWs_append_sep hc, List.filter_append]

/-- The first chunk of a split is an initial segment of the string. -/
theorem splitWs_chunk_pre : ∀ (s : Str) (h0 : List Char) (t : List (List Char)),
    splitWs s = h0 :: t → h0 <+: s := by
  intro s
  induction s with
  | nil =>
    intro h0 t h
    injection h with h1 _
    subst h1
    exact ⟨[], rfl⟩
  | cons c s' ih =>
    intro h0 t h
    rw [splitWs_cons] at h
    by_cases hc : rs_isSpace c = true
    · rw [if_pos hc] at h
      injection h with h1 _
      subst h1
      exact ⟨c :: s', rfl⟩
    · rw [if_neg hc] at h
      rcases hs : splitWs s' with _ | ⟨h2, t2⟩
      · exact absurd hs (splitWs_ne_nil s')
      · rw [hs] at h
        injection h with h1 _
        obtain ⟨r, hr⟩ := ih h2 t2 hs
        subst h1
        exact ⟨r, by rw [List.cons_append, hr]⟩

/-- Every chunk of a split is a contiguous part of the string. -/
theorem splitWs_chunk_inf : ∀ (s : Str), ∀ w ∈ splitWs s, w <:+: s := by
  intro s
  induction s with
  | nil =>
    intro w hw
    simp only [splitWs, List.mem_singleton] at hw
    subst hw
    exact ⟨[], [], rfl⟩
  | cons c s' ih =>
    intro w hw
    rw [splitWs_cons] at hw
    by_cases hc : rs_isSpace c = true
    · rw [if_pos hc] at hw
      rcases List.mem_cons.mp hw with rfl | hw
      · exact ⟨[], c :: s', rfl⟩
      · exact List.infix_cons (ih w hw)
    · rw [if_neg hc] at hw
      rcases hs : splitWs s' with _ | ⟨h2, t2⟩
      · exact absurd hs (splitWs_ne_nil s')
      · rw [hs] at hw
        rcases List.mem_cons.mp hw with rfl | hw
        · obtain ⟨r, hr⟩ := splitWs_chunk_pre s' h2 t2 hs
          exact inf_of_pre ⟨r, by rw [List.cons_append, hr]⟩
        · exact List.infix_cons (ih w (by rw [hs]; exact List.mem_cons_of_mem h2 hw))

/-- Every token of a string is a contiguous part of it. -/
theorem words_inf (s : Str) : ∀ w ∈ words s, w <:+: s := by
  intro w hw
  unfold words at hw
  exact splitWs_chunk_inf s w (List.mem_filter.mp hw).1

/-- A string without an occurrence of `p` has no token starting with
`p`. -/
theorem count_tokens_zero {p s : Str} (h : ¬ p <:+: s) : count_tokens p s = 0 := by
  unfold count_tokens
  rw [List.countP_eq_zero]
  intro w hw hpw
  exact h ((inf_of_pre (by simpa using hpw)).trans (words_inf s w hw))

/-- Splitting after a whitespace-free initial segment extends the first
chunk. -/
theorem splitWs_word_append {a : Str} (ha : ∀ c ∈ a, rs_isSpace c = false) :
    ∀ {b : Str} {h0 : List Char} {t : List (List Char)},
      splitWs b = h0 :: t → splitWs (a ++ b) = (a ++ h0) :: t := by
  induction a with
  | nil =>
    intro b h0 t hb
    simpa using hb
  | cons d a' ih =>
    intro b h0 t hb
    have hd : rs_isSpace d = false := ha d (List.mem_cons_self d a')
    rw [List.cons_append, splitWs_cons,
      if_neg (by simp [hd]), ih (fun c hc => ha c (List.mem_cons_of_mem d hc)) hb]
    rfl

/-- A string of the form `p ++ x` with no further occurrence of `p` has
exactly one token starting with `p`, provided `p` is nonempty and
whitespace-free. -/
theorem count_tokens_self_append {p x : Str} (hps : ∀ c ∈ p, rs_isSpace c = false)
    (hpne : p ≠ []) (hx : ¬ p <:+: x) : count_tokens p (p ++ x) = 1 := by
  rcases hs : splitWs x with _ | ⟨h0, t⟩
  · exact absurd hs (splitWs_ne_nil x)
  have hne : (!(p ++ h0).isEmpty) = true := by
    cases p with
    | nil => exact absurd rfl hpne
    | cons pc pt => rfl
  have h1 : List.countP (fun w => List.isPrefixOf p w)
      (List.filter (fun w => !List.isEmpty w) t) = 0 := by
    rw [List.countP_eq_zero]
    intro w hw hpw
    have hwt : w ∈ t := (List.mem_filter.mp hw).1
    have hwx : w <:+: x := splitWs_chunk_inf x w (by rw [hs]; exact List.mem_cons_of_mem h0 hwt)
    exact hx ((inf_of_pre (by simpa using hpw)).trans hwx)
  unfold count_tokens words
  rw [splitWs_word_append hps hs, List.filter_cons, if_pos hne]
  simp [List.countP_cons, pre_self_append p h0, h1]

/-- A string of the form `p ++ x` has no token starting with a different
pattern `q` when `q` is not a prefix of any `p`-initial word and has no
occurrence in `x`. -/
theorem count_tokens_cross_append {p q x : Str} (hps : ∀ c ∈ p, rs_isSpace c = false)
    (hpne : p ≠ []) (hpq : ∀ h0 : Str, q.isPrefixOf (p ++ h0) = false)
    (hqx : ¬ q <:+: x) : count_tokens q (p ++ x) = 0 := by
  rcases hs : splitWs x with _ | ⟨h0, t⟩
  · exact absurd hs (splitWs_ne_nil x)
  have hne : (!(p ++ h0).isEmpty) = true := by
    cases p with
    | nil => exact absurd rfl hpne
    | cons pc pt => rfl
  have h1 : List.countP (fun w => List.isPrefixOf q w)
      (List.filter (fun w => !List.isEmpty w) t) = 0 := by
    rw [List.countP_eq_zero]
    intro w hw hpw
    have hwt : w ∈ t := (List.mem_filter.mp hw).1
    have hwx : w <:+: x := splitWs_chunk_inf x w (by rw [hs]; exact List.mem_cons_of_mem h0 hwt)
    exact hqx ((inf_of_pre (by simpa using hpw)).trans hwx)
  unfold count_tokens words
  rw [splitWs_word_append hps hs, List.filter_cons, if_pos hne]
  simp [List.countP_cons, hpq h0, h1]

/-- A nonempty whitespace-free string is a single token. -/
theorem words_single {c : Str} (hne : c ≠ []) (hws : ∀ ch ∈ c, rs_isSpace ch = false) :
    words c = [c] := by
  rcases c with _ | ⟨ch, ct⟩
  · exact absurd rfl hne
  · have h1 : splitWs (ch :: ct) = [ch :: ct] := by
      have h2 := splitWs_word_append hws
        (show splitWs ([] : Str) = [] :: [] from rfl)
      simpa using h2
    unfold words
    rw [h1]
    rfl

/-- A nonempty whitespace-free string starting with the pattern counts as
one token. -/
theorem count_tokens_single_pos {p c : Str} (hne : c ≠ [])
    (hws : ∀ ch ∈ c, rs_isSpace ch = false)
    (hp : List.isPrefixOf p c = true) : count_tokens p c = 1 := by
  unfold count_tokens
  rw [words_single hne hws]
  simp [List.countP_cons, hp]

/-- A nonempty whitespace-free string not starting with the pattern counts
as zero tokens. -/
theorem count_tokens_single_neg {p c : Str} (hne : c ≠ [])
    (hws : ∀ ch ∈ c, rs_isSpace ch = false)
    (hp : List.isPrefixOf p c = false) : count_tokens p c = 0 := by
  unfold count_tokens
  rw [words_single hne hws]
  simp [List.countP_cons, hp]

/-- Token counting splits at a whitespace junction. -/
theorem count_tokens_sep {c : Char} (hc : rs_isSpace c = true) (p a b : Str) :
    count_tokens p (a ++ c :: b) = count_tokens p a + count_tokens p b := by
  unfold count_tokens
  rw [words_append_sep hc, List.countP_append]

/-- The empty string has no tokens. -/
theorem count_tokens_nil (p : Str) : count_tokens p [] = 0 := rfl

/-- The root fragment of `RaspiBootManager.setup_cmdline` with leading space and trailing
space stripped. -/
theorem frag_drop_root (dev : Str) :
    ((str " root=" ++ dev ++ [' ']).drop 1).dropLast = str "root=" ++ dev := by
  have h : (str " root=" ++ dev ++ [' ']).drop 1 = (str "root=" ++ dev) ++ [' '] := rfl
  rw [h, List.dropLast_concat]

/-- The rootfstype fragment of `RaspiBootManager.setup_cmdline` with leading space and
trailing space stripped. -/
theorem frag_drop_fs (fs : Str) :
    ((str " rootfstype=" ++ fs ++ [' ']).drop 1).dropLast = str "rootfstype=" ++ fs := by
  have h : (str " rootfstype=" ++ fs ++ [' ']).drop 1 = (str "rootfstype=" ++ fs) ++ [' '] := rfl
  rw [h, List.dropLast_concat]

/-- The root token chunk is nonempty. -/
theorem ne_nil_root (dev : Str) : str "root=" ++ dev ≠ [] := by
  rw [show str "root=" ++ dev = 'r' :: (str "oot=" ++ dev) from rfl]
  exact List.cons_ne_nil _ _

/-- The rootfstype token chunk is nonempty. -/
theorem ne_nil_fs (fs : Str) : str "rootfstype=" ++ fs ≠ [] := by
  rw [show str "rootfstype=" ++ fs = 'r' :: (str "ootfstype=" ++ fs) from rfl]
  exact List.cons_ne_nil _ _

/-- Whitespace-freedom of the root token chunk. -/
theorem ws_free_root {dev : Str} (hdev : ∀ c ∈ dev, rs_isSpace c = false) :
    ∀ ch ∈ str "root=" ++ dev, rs_isSpace ch = false := by
  intro ch hch
  rcases List.mem_append.mp hch with h | h
  · exact (by decide : ∀ ch ∈ str "root=", rs_isSpace ch = false) ch h
  · exact hdev ch h

/-- Whitespace-freedom of the rootfstype token chunk. -/
theorem ws_free_fs {fs : Str} (hfs : ∀ c ∈ fs, rs_isSpace c = false) :
    ∀ ch ∈ str "rootfstype=" ++ fs, rs_isSpace ch = false := by
  intro ch hch
  rcases List.mem_append.mp hch with h | h
  · exact (by decide : ∀ ch ∈ str "rootfstype=", rs_isSpace ch = false) ch h
  · exact hfs ch h

/-- The rootfstype pattern does not start the root token chunk. -/
theorem pre_fs_on_root (dev : Str) :
    List.isPrefixOf (str "rootfstype=") (str "root=" ++ dev) = false := rfl

/-- The console pattern does not start the root token chunk. -/
theorem pre_console_on_root (dev : Str) :
    List.isPrefixOf (str "console=") (str "root=" ++ dev) = false := rfl

/-- The root pattern does not start the rootfstype token chunk. -/
theorem pre_root_on_fs (fs : Str) :
    List.isPrefixOf (str "root=") (str "rootfstype=" ++ fs) = false := rfl

/-- The console pattern does not start the rootfstype token chunk. -/
theorem pre_console_on_fs (fs : Str) :
    List.isPrefixOf (str "console=") (str "rootfstype=" ++ fs) = false := rfl

/-- Shape of the cmdline rewrite on pattern-free input: with no prior
`root=`, `rootfstype=` or `console=` occurrence in the command line and no
cross-occurrence inside the appended fragments, `RaspiBootManager.setup_cmdline` appends the
root, rootfstype and console fragments, the optional kernel options and a
final newline to the trimmed input. -/
theorem cmdline_shape (cmdline dev fs opts : Str)
    (h1 : ¬ str "root=" <:+: cmdline)
    (h2 : ¬ str "rootfstype=" <:+: cmdline)
    (h3 : ¬ str "console=" <:+: cmdline)
    (hBr : ¬ str "rootfstype=" <:+: (str " root=" ++ dev))
    (hBc : ¬ str "console=" <:+: (str " root=" ++ dev))
    (hCc : ¬ str "console=" <:+: (str " rootfstype=" ++ fs)) :
    RaspiBootManager.setup_cmdline cmdline dev fs opts =
      ((((trim_end cmdline ++ (str " root=" ++ dev)) ++ (str " rootfstype=" ++ fs))
          ++ str " console=tty1 console=serial0,115200")
        ++ (if opts.isEmpty then ([] : Str) else ' ' :: opts)) ++ ['\n'] := by
  have hA1 : ¬ str "root=" <:+: trim_end cmdline := not_infix_trim h1
  have hA2 : ¬ str "rootfstype=" <:+: trim_end cmdline := not_infix_trim h2
  have hA3 : ¬ str "console=" <:+: trim_end cmdline := not_infix_trim h3
  have hM1 : ¬ str "rootfstype=" <:+: (trim_end cmdline ++ (str " root=" ++ dev)) :=
    not_infix_append_head hA2 hBr
      (show (str " root=" ++ dev).head? = some ' ' from rfl) (by decide)
  have hM1c : ¬ str "console=" <:+: (trim_end cmdline ++ (str " root=" ++ dev)) :=
    not_infix_append_head hA3 hBc
      (show (str " root=" ++ dev).head? = some ' ' from rfl) (by decide)
  have hM2c : ¬ str "console=" <:+:
      ((trim_end cmdline ++ (str " root=" ++ dev)) ++ (str " rootfstype=" ++ fs)) :=
    not_infix_append_head hM1c hCc
      (show (str " rootfstype=" ++ fs).head? = some ' ' from rfl) (by decide)
  have hcon1 : ¬ (str "root=" ++ dev) <:+: trim_end cmdline :=
    fun hi => hA1 ((inf_of_pre ⟨dev, rfl⟩).trans hi)
  have hcon2 : ¬ (str "rootfstype=" ++ fs) <:+: (trim_end cmdline ++ (str " root=" ++ dev)) :=
    fun hi => hM1 ((inf_of_pre ⟨fs, rfl⟩).trans hi)
  have hft : ¬ (false = true) := by decide
  unfold RaspiBootManager.setup_cmdline
  dsimp only
  rw [replace_none hA1, frag_drop_root dev, str_contains_false hcon1, if_neg hft,
    List.dropLast_concat, replace_none hM1, frag_drop_fs fs, str_contains_false hcon2,
    if_neg hft, List.dropLast_concat, replace_all_none hM2c]
  rcases opts with _ | ⟨oc, ot⟩
  · rw [if_pos (show List.isEmpty ([] : Str) = true from rfl),
      if_pos (show List.isEmpty ([] : Str) = true from rfl)]
    simp only [List.append_assoc]
    rfl
  · rw [if_neg (by simp), if_neg (by simp)]
    simp only [List.append_assoc]
    rfl

/-- C2 counterexample: the claimed invariant is universally quantified over
the input command line and kernel options, but (i) an input with two
`root=` tokens keeps two of them, since `Regex::replace` replaces only the
first; (ii) an input whose only `root=` occurrence is not token-initial
(`xroot=a`) yields zero `root=` tokens, since the splice point falls
inside the existing token; (iii) caller-provided kernel options can inject
a second `root=` token after the console tokens. -/
theorem c2_counterexample :
    count_tokens (str "root=")
      (RaspiBootManager.setup_cmdline (str "root=a root=b") (str "mmcblk0p2") (str "ext4") []) = 2 ∧
    count_tokens (str "root=")
      (RaspiBootManager.setup_cmdline (str "xroot=a") (str "mmcblk0p2") (str "ext4") []) = 0 ∧
    count_tokens (str "root=")
      (RaspiBootManager.setup_cmdline (str "quiet") (str "mmcblk0p2") (str "ext4") (str "root=c")) = 2 := by
  refine ⟨by decide, by decide, by decide⟩

/-- C2 (amended): for a command line with no `root=`, `rootfstype=` or
`console=` occurrence at all, a whitespace-free kernel device name and
filesystem type whose spliced fragments do not accidentally contain the
other patterns, and kernel options that are either empty or a single
whitespace-free token not starting with any of the three patterns, the
cmdline content produced by `setup` contains exactly one `root=` token,
exactly one `rootfstype=` token, exactly two `console=` tokens (in
particular at least one), and ends with exactly one trailing newline. -/
theorem c2_amended_cmdline_tokens (cmdline dev fs opts : Str)
    (h1 : ¬ str "root=" <:+: cmdline)
    (h2 : ¬ str "rootfstype=" <:+: cmdline)
    (h3 : ¬ str "console=" <:+: cmdline)
    (hBr : ¬ str "rootfstype=" <:+: (str " root=" ++ dev))
    (hBc : ¬ str "console=" <:+: (str " root=" ++ dev))
    (hCc : ¬ str "console=" <:+: (str " rootfstype=" ++ fs))
    (hdev : ∀ c ∈ dev, rs_isSpace c = false)
    (hfs : ∀ c ∈ fs, rs_isSpace c = false)
    (how : ∀ c ∈ opts, rs_isSpace c = false)
    (hor : ¬ str "root=" <+: opts)
    (hof : ¬ str "rootfstype=" <+: opts)
    (hoc : ¬ str "console=" <+: opts) :
    count_tokens (str "root=") (RaspiBootManager.setup_cmdline cmdline dev fs opts) = 1 ∧
    count_tokens (str "rootfstype=") (RaspiBootManager.setup_cmdline cmdline dev fs opts) = 1 ∧
    count_tokens (str "console=") (RaspiBootManager.setup_cmdline cmdline dev fs opts) = 2 ∧
    ends_with_single_nl (RaspiBootManager.setup_cmdline cmdline dev fs opts) := by
  have hsp : rs_isSpace ' ' = true := by decide
  have hnl2 : rs_isSpace '\n' = true := by decide
  have hA0r : count_tokens (str "root=") (trim_end cmdline) = 0 :=
    count_tokens_zero (not_infix_trim h1)
  have hA0f : count_tokens (str "rootfstype=") (trim_end cmdline) = 0 :=
    count_tokens_zero (not_infix_trim h2)
  have hA0c : count_tokens (str "console=") (trim_end cmdline) = 0 :=
    count_tokens_zero (not_infix_trim h3)
  have hT1ne := ne_nil_root dev
  have hT1ws := ws_free_root hdev
  have hT2ne := ne_nil_fs fs
  have hT2ws := ws_free_fs hfs
  have c_r_1 : count_tokens (str "root=") (str "root=" ++ dev) = 1 :=
    count_tokens_single_pos hT1ne hT1ws (pre_self_append _ _)
  have c_r_2 : count_tokens (str "root=") (str "rootfstype=" ++ fs) = 0 :=
    count_tokens_single_neg hT2ne hT2ws (pre_root_on_fs fs)
  have c_f_1 : count_tokens (str "rootfstype=") (str "root=" ++ dev) = 0 :=
    count_tokens_single_neg hT1ne hT1ws (pre_fs_on_root dev)
  have c_f_2 : count_tokens (str "rootfstype=") (str "rootfstype=" ++ fs) = 1 :=
    count_tokens_single_pos hT2ne hT2ws (pre_self_append _ _)
  have c_c_1 : count_tokens (str "console=") (str "root=" ++ dev) = 0 :=
    count_tokens_single_neg hT1ne hT1ws (pre_console_on_root dev)
  have c_c_2 : count_tokens (str "console=") (str "rootfstype=" ++ fs) = 0 :=
    count_tokens_single_neg hT2ne hT2ws (pre_console_on_fs fs)
  have d_r : count_tokens (str "root=") (str "console=tty1 console=serial0,115200") = 0 := by
    decide
  have d_f : count_tokens (str "rootfstype=")
      (str "console=tty1 console=serial0,115200") = 0 := by decide
  have d_c : count_tokens (str "console=") (str "console=tty1 console=serial0,115200") = 2 := by
    decide
  rw [cmdline_shape cmdline dev fs opts h1 h2 h3 hBr hBc hCc]
  rcases opts with _ | ⟨oc, ot⟩
  · rw [if_pos (show List.isEmpty ([] : Str) = true from rfl), List.append_nil,
      show str " console=tty1 console=serial0,115200" =
        ' ' :: str "console=tty1 console=serial0,115200" from rfl,
      show str " rootfstype=" ++ fs = ' ' :: (str "rootfstype=" ++ fs) from rfl,
      show str " root=" ++ dev = ' ' :: (str "root=" ++ dev) from rfl]
    refine ⟨?_, ?_, ?_, ?_⟩
    · rw [count_tokens_sep hnl2, count_tokens_nil, count_tokens_sep hsp,
        count_tokens_sep hsp, count_tokens_sep hsp, hA0r, c_r_1, c_r_2, d_r]
    · rw [count_tokens_sep hnl2, count_tokens_nil, count_tokens_sep hsp,
        count_tokens_sep hsp, count_tokens_sep hsp, hA0f, c_f_1, c_f_2, d_f]
    · rw [count_tokens_sep hnl2, count_tokens_nil, count_tokens_sep hsp,
        count_tokens_sep hsp, count_tokens_sep hsp, hA0c, c_c_1, c_c_2, d_c]
    · refine ⟨List.getLast?_concat _, ?_⟩
      rw [List.dropLast_concat,
        List.getLast?_append_of_ne_nil _
          (List.cons_ne_nil ' ' (str "console=tty1 console=serial0,115200"))]
      decide
  · have hone : ∀ c ∈ oc :: ot, rs_isSpace c = false := how
    have horb : List.isPrefixOf (str "root=") (oc :: ot) = false := by
      cases h : List.isPrefixOf (str "root=") (oc :: ot)
      · rfl
      · exact absurd (by simpa using h) hor
    have hofb : List.isPrefixOf (str "rootfstype=") (oc :: ot) = false := by
      cases h : List.isPrefixOf (str "rootfstype=") (oc :: ot)
      · rfl
      · exact absurd (by simpa using h) hof
    have hocb : List.isPrefixOf (str "console=") (oc :: ot) = false := by
      cases h : List.isPrefixOf (str "console=") (oc :: ot)
      · rfl
      · exact absurd (by simpa using h) hoc
    have o_r : count_tokens (str "root=") (oc :: ot) = 0 :=
      count_tokens_single_neg (List.cons_ne_nil oc ot) hone horb
    have o_f : count_tokens (str "rootfstype=") (oc :: ot) = 0 :=
      count_tokens_single_neg (List.cons_ne_nil oc ot) hone hofb
    have o_c : count_tokens (str "console=") (oc :: ot) = 0 :=
      count_tokens_single_neg (List.cons_ne_nil oc ot) hone hocb
    rw [if_neg (by simp),
      show str " console=tty1 console=serial0,115200" =
        ' ' :: str "console=tty1 console=serial0,115200" from rfl,
      show str " rootfstype=" ++ fs = ' ' :: (str "rootfstype=" ++ fs) from rfl,
      show str " root=" ++ dev = ' ' :: (str "root=" ++ dev) from rfl]
    refine ⟨?_, ?_, ?_, ?_⟩
    · rw [count_tokens_sep hnl2, count_tokens_nil, count_tokens_sep hsp,
        count_tokens_sep hsp, count_tokens_sep hsp, count_tokens_sep hsp,
        hA0r, c_r_1, c_r_2, d_r, o_r]
    · rw [count_tokens_sep hnl2, count_tokens_nil, count_tokens_sep hsp,
        count_tokens_sep hsp, count_tokens_sep hsp, count_tokens_sep hsp,
        hA0f, c_f_1, c_f_2, d_f, o_f]
    · rw [count_tokens_sep hnl2, count_tokens_nil, count_tokens_sep hsp,
        count_tokens_sep hsp, count_tokens_sep hsp, count_tokens_sep hsp,
        hA0c, c_c_1, c_c_2, d_c, o_c]
    · refine ⟨List.getLast?_concat _, ?_⟩
      rw [List.dropLast_concat,
        List.getLast?_append_of_ne_nil _ (List.cons_ne_nil ' ' (oc :: ot)),
        List.getLast?_cons_cons,
        List.getLast?_eq_getLast_of_ne_nil (List.cons_ne_nil oc ot)]
      intro hcontra
      injection hcontra with hc2
      have hmem : (oc :: ot).getLast (List.cons_ne_nil oc ot) ∈ oc :: ot :=
        List.getLast_mem _
      have hws2 := hone _ hmem
      rw [hc2] at hws2
      exact absurd hws2 (by decide)

/-- C2 amended witness: the token counts and the trailing newline evaluated
on a concrete command line, device, filesystem type and option string. -/
theorem c2_amended_cmdline_tokens_witness :
    count_tokens (str "root=")
      (RaspiBootManager.setup_cmdline (str "dwc_otg.lpm_enable=0 rootwait") (str "/dev/mmcblk0p2")
        (str "ext4") (str "quiet")) = 1 ∧
    count_tokens (str "rootfstype=")
      (RaspiBootManager.setup_cmdline (str "dwc_otg.lpm_enable=0 rootwait") (str "/dev/mmcblk0p2")
        (str "ext4") (str "quiet")) = 1 ∧
    count_tokens (str "console=")
      (RaspiBootManager.setup_cmdline (str "dwc_otg.lpm_enable=0 rootwait") (str "/dev/mmcblk0p2")
        (str "ext4") (str "quiet")) = 2 ∧
    ends_with_single_nl
      (RaspiBootManager.setup_cmdline (str "dwc_otg.lpm_enable=0 rootwait") (str "/dev/mmcblk0p2")
        (str "ext4") (str "quiet")) :=
  c2_amended_cmdline_tokens (str "dwc_otg.lpm_enable=0 rootwait") (str "/dev/mmcblk0p2")
    (str "ext4") (str "quiet") (by decide) (by decide) (by decide) (by decide) (by decide)
    (by decide) (by decide) (by decide) (by decide) (by decide) (by decide) (by decide)

/-- C1 witness: the round-trip evaluated on a concrete descriptor with a
two-entry backup list and one with an empty backup list. -/
theorem c1_stage2_roundtrip_witness :
    Stage2Config.from_config (Stage2Config.write_stage2_cfg_str d_multi) = .ok d_multi ∧
    Stage2Config.from_config (Stage2Config.write_stage2_cfg_str d_empty) = .ok d_empty :=
  ⟨c1_stage2_roundtrip d_multi (by decide), c1_stage2_roundtrip d_empty (by decide)⟩

end Migrate
